import Mathlib

/-!
The program `cgps`: layout planning, satellite selection, field rendering, fix-state timing, watchdog

A shallow embedding of `cgps.c` (the curses client of gpsd) and theorems about it.
Integers of the C program (`int`, `time_t`) are modelled by `Int`; loop counters that
start at zero and only count upwards are `Nat`.  The terminal toolkit is modelled by the
values handed to it: a call `mvwprintw(win, row, col, "%-*s", width, text)` is a record of
its arguments.
-/

namespace Cgps

/-! ## Constants of the layout (`#define`s at the head of `cgps.c`) -/

/-- Overhead of the data window: the box around it takes two lines. -/
def DATAWIN_OVERHEAD : Int := 2

/-- Overhead of the satellites window: the box plus the column header line. -/
def SATWIN_OVERHEAD : Int := 3

/-- Number of fields displayed in the data window in GPS mode. -/
def DATAWIN_GPS_FIELDS : Int := 8

/-- Count of optional fields displayed when there is room. -/
def DATAWIN_OPTIONAL_FIELDS : Int := 7

/-- Column at which field descriptions start. -/
def DATAWIN_DESC_OFFSET : Nat := 5

/-- Column at which field values start. -/
def DATAWIN_VALUE_OFFSET : Nat := 17

/-- Width of the data window. -/
def DATAWIN_WIDTH : Nat := 45

/-- Width of the satellites window. -/
def SATELLITES_WIDTH : Nat := 35

/-- Minimum size accepted for the data window in GPS mode. -/
def MIN_GPS_DATAWIN_SIZE : Int := DATAWIN_GPS_FIELDS + DATAWIN_OVERHEAD

/-- Maximum size used for the data window in GPS mode. -/
def MAX_GPS_DATAWIN_SIZE : Int :=
  DATAWIN_GPS_FIELDS + DATAWIN_OPTIONAL_FIELDS + DATAWIN_OVERHEAD

/-- Maximum number of satellites gpsd can track: `MAXCHANNELS - 2`.  `MAXCHANNELS` comes
from `gps.h`, which is not part of the sources at hand, and is a parameter. -/
def MAX_POSSIBLE_SATS (MAXCHANNELS : Int) : Int := MAXCHANNELS - 2

/-! ## Pseudo-signals handed to `die` -/

/-- Voluntary termination. -/
def CGPS_QUIT : Int := 0
/-- The GPS device went away. -/
def GPS_GONE : Int := -1
/-- Low-level failure in GPS read. -/
def GPS_ERROR : Int := -2
/-- Low-level failure in GPS waiting. -/
def GPS_TIMEOUT : Int := -3

/-! ## `windowsetup`: the layout planner -/

deriving instance DecidableEq for Except

/-- The three file-scope variables `windowsetup` assigns. -/
structure geometry where
  raw_flag : Bool
  window_length : Int
  display_sats : Int
  deriving DecidableEq, Repr

/-- What the last branch of `windowsetup` does before the process ends: the text printed
at the top-left corner of the screen and the argument of `die`. -/
structure fatal where
  message : String
  sig : Int
  deriving DecidableEq, Repr

/-- The `(int)raw_flag` conversion. -/
def bool_to_int (b : Bool) : Int := if b then 1 else 0

/-- The text of `"Your screen must be at least 80x%d to run cgps."`. -/
def screen_too_small (n : Int) : String :=
  "Your screen must be at least 80x" ++ toString n ++ " to run cgps."

/-- The size decision of `windowsetup` (GPS mode, `TRUENORTH` undefined), a function of the
row count `ysize` that `getmaxyx` reports.  The four first branches set `raw_flag` and
`window_length` and fall through to the assignment of `display_sats`; the last one prints
the message and calls `die(0)`, which does not return. -/
def windowsetup (ysize : Int) : Except fatal geometry :=
  let finish (raw_flag : Bool) (window_length : Int) : Except fatal geometry :=
    .ok { raw_flag := raw_flag, window_length := window_length,
          display_sats := window_length - SATWIN_OVERHEAD - bool_to_int raw_flag }
  if ysize > MAX_GPS_DATAWIN_SIZE then finish true MAX_GPS_DATAWIN_SIZE
  else if ysize = MAX_GPS_DATAWIN_SIZE then finish false MAX_GPS_DATAWIN_SIZE
  else if ysize > MIN_GPS_DATAWIN_SIZE then finish true MIN_GPS_DATAWIN_SIZE
  else if ysize = MIN_GPS_DATAWIN_SIZE then finish false MIN_GPS_DATAWIN_SIZE
  else .error { message := screen_too_small MIN_GPS_DATAWIN_SIZE, sig := 0 }

/-! ## The satellite list of `update_gps_panel` -/

/-- One entry of `gpsdata->skyview`.  The signal strength is kept as the integer that
`(int)gpsdata->skyview[i].ss` prints. -/
structure satellite_t where
  PRN : Int
  elevation : Int
  azimuth : Int
  ss : Int
  used : Bool
  deriving DecidableEq, Repr

/-- One `mvwprintw(satellites, row, 1, "%-*s", SATELLITES_WIDTH - 3, scr)` call.  `slot` is
`some i` when `scr` holds the formatted entry `skyview[i]` and `none` when it is the empty
string. -/
structure sat_write where
  row : Nat
  slot : Option Nat
  deriving DecidableEq, Repr

/-- The loop `for (i = 0; i < MAX_POSSIBLE_SATS; i++)` of the first branch
(`display_sats >= MAX_POSSIBLE_SATS`): `count` iterations are left, starting at `i`. -/
def sat_rows_all (satellites_visible : Int) : (count i : Nat) → List sat_write
  | 0, _ => []
  | count + 1, i =>
    { row := i + 2, slot := if (i : Int) < satellites_visible then some i else none }
      :: sat_rows_all satellites_visible count (i + 1)

/-- The loop `for (i = 0; i < MAX_POSSIBLE_SATS; i++)` of the second branch, with its
counter `n` of rows written so far: `count` iterations are left, starting at `i`.  The
result is the rows written and the final value of `n`. -/
def sat_rows_select (display_sats satellites_visible : Int) (skyview : Nat → satellite_t) :
    (count i n : Nat) → List sat_write × Nat
  | 0, _, n => ([], n)
  | count + 1, i, n =>
    if (n : Int) < display_sats then
      if (i : Int) < satellites_visible
          ∧ ((skyview i).used = true ∨ satellites_visible ≤ display_sats) then
        let rest := sat_rows_select display_sats satellites_visible skyview count (i + 1) (n + 1)
        ({ row := n + 2, slot := some i } :: rest.1, rest.2)
      else sat_rows_select display_sats satellites_visible skyview count (i + 1) n
    else sat_rows_select display_sats satellites_visible skyview count (i + 1) n

/-- The loop `for (i = n; i <= display_sats; i++)` that writes empty rows: `count`
iterations are left, starting at `i`. -/
def sat_rows_blank : (count i : Nat) → List sat_write
  | 0, _ => []
  | count + 1, i => { row := i + 2, slot := none } :: sat_rows_blank count (i + 1)

/-- The satellite part of `update_gps_panel`: every row written to the `satellites`
window, in the order written. -/
def sat_panel (MAXCHANNELS display_sats satellites_visible : Int)
    (skyview : Nat → satellite_t) : List sat_write :=
  if satellites_visible ≠ 0 then
    if display_sats ≥ MAX_POSSIBLE_SATS MAXCHANNELS then
      sat_rows_all satellites_visible (MAX_POSSIBLE_SATS MAXCHANNELS).toNat 0
    else
      let sel := sat_rows_select display_sats satellites_visible skyview
        (MAX_POSSIBLE_SATS MAXCHANNELS).toNat 0 0
      let n := sel.2
      if (n : Int) < display_sats then
        -- `i` runs from `n` to `display_sats` inclusive
        sel.1 ++ sat_rows_blank (display_sats + 1 - n).toNat n
      else sel.1
  else []

/-- The skyview slots shown, in the order written. -/
def shown_slots (ws : List sat_write) : List Nat := ws.filterMap (·.slot)

/-- A sky in which exactly the slots listed in `used` are used in the fix; slot `i` carries
PRN `i + 1`. -/
def sky_with_used (used : List Nat) : Nat → satellite_t :=
  fun i => { PRN := i + 1, elevation := 45, azimuth := 180, ss := 30,
             used := decide (i ∈ used) }

/-- The test that lets slot `i` into the list in the second branch. -/
def qualifies (display_sats satellites_visible : Int) (skyview : Nat → satellite_t)
    (i : Nat) : Bool :=
  decide ((i : Int) < satellites_visible
    ∧ ((skyview i).used = true ∨ satellites_visible ≤ display_sats))

/-- The used-in-fix satellites among the slots the loops visit (slots below
`MAX_POSSIBLE_SATS` and below `satellites_visible`), in input order. -/
def used_tracked (MAXCHANNELS satellites_visible : Int) (skyview : Nat → satellite_t) :
    List Nat :=
  (List.range (MAX_POSSIBLE_SATS MAXCHANNELS).toNat).filter
    (fun (i : Nat) => decide ((i : Int) < satellites_visible) && (skyview i).used)

/-- The used-in-fix satellites among all visible ones, in input order. -/
def used_visible (satellites_visible : Int) (skyview : Nat → satellite_t) : List Nat :=
  (List.range satellites_visible.toNat).filter (fun i => (skyview i).used)

/-- Rows `n + 2`, `n + 3`, ... filled, one after the other, with the given slots. -/
def place : Nat → List Nat → List sat_write
  | _, [] => []
  | n, s :: ss => { row := n + 2, slot := some s } :: place (n + 1) ss

/-- The writes that show a satellite, the empty rows left out. -/
def real_rows (ws : List sat_write) : List sat_write := ws.filter (fun w => w.slot.isSome)

/-! ## Values of type `double`

A `double` is not-a-number or a finite binary fraction `m * 2 ^ e`.  Infinities,
signed zeros and the exponent range are left out; products and differences are rounded to
53 significant bits, to nearest, ties to even. -/

/-- A C `double` (also used for the `float` factors, which are promoted before use). -/
inductive double where
  | nan
  | fin (m : Int) (e : Int)
  deriving DecidableEq, Repr

/-- The test `isnan(x) != 0`. -/
def isnan : double → Bool
  | .nan => true
  | .fin _ _ => false

/-- Division of `n` by `d` rounded to nearest, ties to even. -/
def div_half_even (n d : Nat) : Nat :=
  let q := n / d
  let r := n % d
  if 2 * r > d ∨ (2 * r = d ∧ q % 2 = 1) then q + 1 else q

/-- The number of binary digits of `n`, counted by halving at most `fuel` times. -/
def bit_length_aux : (fuel n : Nat) → Nat
  | 0, _ => 0
  | fuel + 1, n => if n = 0 then 0 else bit_length_aux fuel (n / 2) + 1

/-- The number of binary digits of `n` (0 for 0). -/
def bit_length (n : Nat) : Nat := bit_length_aux n n

/-- Rounding of the exact value `m * 2 ^ e` to 53 significant bits. -/
def round53 (m e : Int) : double :=
  let bits := bit_length m.natAbs
  if bits ≤ 53 then .fin m e
  else
    let q : Int := div_half_even m.natAbs (2 ^ (bits - 53))
    .fin (if m < 0 then -q else q) (e + ((bits - 53 : Nat) : Int))

/-- The product `x * y`. -/
def fmul : double → double → double
  | .fin m1 e1, .fin m2 e2 => round53 (m1 * m2) (e1 + e2)
  | _, _ => .nan

/-- The difference `x - y`. -/
def fsub : double → double → double
  | .fin m1 e1, .fin m2 e2 =>
    let e := min e1 e2
    round53 (m1 * 2 ^ (e1 - e).toNat - m2 * 2 ^ (e2 - e).toNat) e
  | _, _ => .nan

/-- The function `fabs`. -/
def fabs : double → double
  | .nan => .nan
  | .fin m e => .fin (Int.ofNat m.natAbs) e

/-- The comparison `x < 0`, false for not-a-number. -/
def is_negative : double → Bool
  | .nan => false
  | .fin m _ => decide (m < 0)

/-- An `int` constant promoted to `double`. -/
def of_int (n : Int) : double := .fin n 0

/-- The conversion `(int)x`: truncation towards zero.  Outside the range of `int` (and for
not-a-number) the C result is undefined; the value the x86 conversion instruction yields,
`INT_MIN`, is taken. -/
def to_int : double → Int
  | .nan => -2147483648
  | .fin m e =>
    let mag : Int := if e ≥ 0 then m.natAbs * 2 ^ e.toNat else m.natAbs / 2 ^ (-e).toNat
    let v : Int := if m < 0 then -mag else mag
    if -2147483648 ≤ v ∧ v ≤ 2147483647 then v else -2147483648

/-- The conversion `(int)x` of a `time_t` difference: reduction to 32 bits, two's
complement. -/
def time_to_int (x : Int) : Int := (x + 2147483648) % 4294967296 - 2147483648

/-! ## String formatting of the C library -/

/-- The string of `n` copies of the character `c`. -/
def chars (n : Nat) (c : Char) : String := String.mk (List.replicate n c)

/-- The conversion `"%-*s"`: `s` left-justified in a field of `width` columns.  Blanks are
added on the right when `s` is shorter; a longer `s` is written in full. -/
def pad_left_justified (width : Nat) (s : String) : String :=
  s ++ chars (width - s.length) ' '

/-- The conversion `"%.<prec>f"` for `prec ≥ 1`: sign, integer part, point and `prec`
digits, the value rounded to nearest, ties to even. -/
def fmt_f (prec : Nat) : double → String
  | .nan => "nan"
  | .fin m e =>
    let scaled : Nat := m.natAbs * 10 ^ prec
    let q : Nat := if e ≥ 0 then scaled * 2 ^ e.toNat else div_half_even scaled (2 ^ (-e).toNat)
    let frac := toString (q % 10 ^ prec)
    (if m < 0 then "-" else "") ++ toString (q / 10 ^ prec) ++ "."
      ++ chars (prec - frac.length) '0' ++ frac

/-- The conversion `"%d"`. -/
def fmt_d (n : Int) : String := toString n

/-- What `snprintf(scr, sizeof(scr), ...)` leaves in `char scr[128]`: at most 127
characters of the formatted text. -/
def snprintf (s : String) : String := String.mk (s.data.take 127)

/-- The conversions `"%3d"` (`zero = false`: blanks on the left) and `"%02d"`, `"%03d"`
(`zero = true`: zeros between the sign and the digits), up to `width` columns. -/
def fmt_d_width (zero : Bool) (width : Nat) (n : Int) : String :=
  let digits := toString n.natAbs
  let sign := if n < 0 then "-" else ""
  let fill := width - (sign.length + digits.length)
  if zero then sign ++ chars fill '0' ++ digits else chars fill ' ' ++ sign ++ digits

/-- The text of one satellite entry, `" %3d    %02d    %03d    %02d      %c"` applied to
PRN, elevation, azimuth, signal strength and `'Y'` or `'N'` for the used flag. -/
def satellite_scr (sat : satellite_t) : String :=
  snprintf (" " ++ fmt_d_width false 3 sat.PRN ++ "    " ++ fmt_d_width true 2 sat.elevation
    ++ "    " ++ fmt_d_width true 3 sat.azimuth ++ "    " ++ fmt_d_width true 2 sat.ss
    ++ "      " ++ (if sat.used then "Y" else "N"))

/-- The string a satellite row is written from: the formatted entry of its slot, or the
empty string. -/
def sat_write.scr (skyview : Nat → satellite_t) (w : sat_write) : String :=
  match w.slot with
  | some i => satellite_scr (skyview i)
  | none => ""

/-- The characters a satellite row puts on the screen, `SATELLITES_WIDTH - 3` columns
wide. -/
def sat_write.text (skyview : Nat → satellite_t) (w : sat_write) : String :=
  pad_left_justified (SATELLITES_WIDTH - 3) (w.scr skyview)

/-! ## The snapshot and the file-scope state -/

/-- The fix modes of `gps.h`, as the comment on `state` lists them. -/
def MODE_NOT_SEEN : Int := 0
/-- No fix. -/
def MODE_NO_FIX : Int := 1
/-- Two-dimensional fix. -/
def MODE_2D : Int := 2
/-- Three-dimensional fix. -/
def MODE_3D : Int := 3

/-- The members of `struct gps_fix_t` that `update_gps_panel` reads. -/
structure gps_fix_t where
  mode : Int
  time : double
  latitude : double
  longitude : double
  altitude : double
  track : double
  speed : double
  climb : double
  epx : double
  epy : double
  epv : double
  epd : double
  eps : double
  deriving DecidableEq, Repr

/-- The members of `struct gps_data_t` that `update_gps_panel` reads.  `online` is true
when `gpsdata->online` is not zero; `gps_data` is the text `gps_data(gpsdata)` returns,
`none` for a null pointer. -/
structure gps_data_t where
  online : Bool
  fix : gps_fix_t
  satellites_visible : Int
  skyview : Nat → satellite_t
  gps_data : Option String

/-- The latitude/longitude formats of `gpsdclient.h`. -/
inductive deg_str_type where
  | deg_dd
  | deg_ddmm
  | deg_ddmmss
  deriving DecidableEq, Repr

/-- The file-scope variables of `cgps.c` that `update_gps_panel` reads or writes. -/
structure cgps_t where
  status_timer : Int
  state : Int
  altfactor : double
  speedfactor : double
  altunits : String
  speedunits : String
  raw_flag : Bool
  silent_flag : Bool
  magnetic_flag : Bool
  window_length : Int
  display_sats : Int
  deg_type : deg_str_type
  deriving DecidableEq, Repr

/-- The routines and the constant of the gpsd library that `update_gps_panel` uses; their
sources are not at hand and they are parameters. -/
structure gpsd_lib where
  MAXCHANNELS : Int
  unix_to_iso8601 : double → String
  deg_to_str : deg_str_type → double → String
  true2magnetic : double → double → double → double
  maidenhead : double → double → String

/-- The clock as one call of `update_gps_panel` reads it: `time(NULL)` when the status
line is formatted, `timestamp()` for the time offset, `time(NULL)` when the state change
is recorded. -/
structure clock_t where
  time_status : Int
  timestamp : double
  time_reset : Int
  deriving DecidableEq, Repr

/-- One `mvwprintw(datawin, row, col, "%-*s", width, scr)` call. -/
structure win_write where
  row : Nat
  col : Nat
  width : Nat
  scr : String
  deriving DecidableEq, Repr

/-- The characters the call puts on the screen. -/
def win_write.text (w : win_write) : String := pad_left_justified w.width w.scr

/-! ## The data fields of `update_gps_panel`

Each function below is the content of `scr` after one `if`/`else` of the source. -/

/-- Time/date, row 1. -/
def time_scr (lib : gpsd_lib) (fix : gps_fix_t) : String :=
  if isnan fix.time = false then lib.unix_to_iso8601 fix.time
  else snprintf "n/a"

/-- Latitude, row 2. -/
def latitude_scr (lib : gpsd_lib) (g : cgps_t) (fix : gps_fix_t) : String :=
  if fix.mode ≥ MODE_2D ∧ isnan fix.latitude = false then
    snprintf (lib.deg_to_str g.deg_type (fabs fix.latitude) ++ " "
      ++ (if is_negative fix.latitude then "S" else "N"))
  else snprintf "n/a"

/-- Longitude, row 3. -/
def longitude_scr (lib : gpsd_lib) (g : cgps_t) (fix : gps_fix_t) : String :=
  if fix.mode ≥ MODE_2D ∧ isnan fix.longitude = false then
    snprintf (lib.deg_to_str g.deg_type (fabs fix.longitude) ++ " "
      ++ (if is_negative fix.longitude then "W" else "E"))
  else snprintf "n/a"

/-- Altitude, row 4. -/
def altitude_scr (g : cgps_t) (fix : gps_fix_t) : String :=
  if fix.mode ≥ MODE_3D ∧ isnan fix.altitude = false then
    snprintf (fmt_f 1 (fmul fix.altitude g.altfactor) ++ " " ++ g.altunits)
  else snprintf "n/a"

/-- Speed, row 5.  The value tested with `isnan` is `fix.track`. -/
def speed_scr (g : cgps_t) (fix : gps_fix_t) : String :=
  if fix.mode ≥ MODE_2D ∧ isnan fix.track = false then
    snprintf (fmt_f 1 (fmul fix.speed g.speedfactor) ++ " " ++ g.speedunits)
  else snprintf "n/a"

/-- Heading, row 6. -/
def heading_scr (lib : gpsd_lib) (g : cgps_t) (fix : gps_fix_t) : String :=
  if fix.mode ≥ MODE_2D ∧ isnan fix.track = false then
    let magheading := lib.true2magnetic fix.latitude fix.longitude fix.track
    if g.magnetic_flag = false ∨ isnan magheading = true then
      snprintf (fmt_f 1 fix.track ++ " deg (true)")
    else snprintf (fmt_f 1 magheading ++ " deg (mag) ")
  else snprintf "n/a"

/-- Rate of climb, row 7. -/
def climb_scr (g : cgps_t) (fix : gps_fix_t) : String :=
  if fix.mode ≥ MODE_3D ∧ isnan fix.climb = false then
    snprintf (fmt_f 1 (fmul (fmul fix.climb g.altfactor) (of_int 60)) ++ " " ++ g.altunits
      ++ "/min")
  else snprintf "n/a"

/-- The value of `newstate`: 0 when the GPS is off line, else the fix mode. -/
def newstate (d : gps_data_t) : Int :=
  if d.online = false then 0 else d.fix.mode

/-- The value `time(NULL) - status_timer` that the status line reports. -/
def seconds_in_state (g : cgps_t) (clk : clock_t) : Int := clk.time_status - g.status_timer

/-- GPS status and time since the last state change, row 8.  `status_timer` is the value
stored before this call. -/
def status_scr (g : cgps_t) (d : gps_data_t) (clk : clock_t) : String :=
  if d.online = false then snprintf "OFFLINE"
  else if d.fix.mode = MODE_2D then
    snprintf ("2D FIX (" ++ fmt_d (time_to_int (seconds_in_state g clk)) ++ " secs)")
  else if d.fix.mode = MODE_3D then
    snprintf ("3D FIX (" ++ fmt_d (time_to_int (seconds_in_state g clk)) ++ " secs)")
  else snprintf ("NO FIX (" ++ fmt_d (time_to_int (seconds_in_state g clk)) ++ " secs)")

/-- An error estimate scaled by `factor`, rows 9, 10, 11 and 13: plus-or-minus, `%d`, blank, unit. -/
def error_scr (value factor : double) (units : String) : String :=
  if isnan value = false then
    snprintf ("+/- " ++ fmt_d (to_int (fmul value factor)) ++ " " ++ units)
  else snprintf "n/a"

/-- The estimated track error, row 12: plus-or-minus, `%d`, `" deg"`. -/
def epd_scr (fix : gps_fix_t) : String :=
  if isnan fix.epd = false then snprintf ("+/- " ++ fmt_d (to_int fix.epd) ++ " deg")
  else snprintf "n/a"

/-- The time offset, row 14. -/
def time_offset_scr (fix : gps_fix_t) (clk : clock_t) : String :=
  if isnan fix.time = false then snprintf (fmt_f 3 (fsub clk.timestamp fix.time))
  else snprintf "n/a"

/-- The grid square, row 15; the string is printed as it is, not through `scr`. -/
def grid_square (lib : gpsd_lib) (fix : gps_fix_t) : String :=
  if isnan fix.longitude = false ∧ isnan fix.latitude = false then
    lib.maidenhead fix.latitude fix.longitude
  else "n/a"

/-- The eight rows always written to `datawin`. -/
def datawin_mandatory (lib : gpsd_lib) (g : cgps_t) (d : gps_data_t) (clk : clock_t) :
    List win_write :=
  [ { row := 1, col := DATAWIN_VALUE_OFFSET, width := 27, scr := time_scr lib d.fix },
    { row := 2, col := DATAWIN_VALUE_OFFSET, width := 27, scr := latitude_scr lib g d.fix },
    { row := 3, col := DATAWIN_VALUE_OFFSET, width := 27, scr := longitude_scr lib g d.fix },
    { row := 4, col := DATAWIN_VALUE_OFFSET, width := 27, scr := altitude_scr g d.fix },
    { row := 5, col := DATAWIN_VALUE_OFFSET, width := 27, scr := speed_scr g d.fix },
    { row := 6, col := DATAWIN_VALUE_OFFSET, width := 27, scr := heading_scr lib g d.fix },
    { row := 7, col := DATAWIN_VALUE_OFFSET, width := 27, scr := climb_scr g d.fix },
    { row := 8, col := DATAWIN_VALUE_OFFSET, width := 27, scr := status_scr g d clk } ]

/-- The seven rows written when the window is long enough. -/
def datawin_optional (lib : gpsd_lib) (g : cgps_t) (d : gps_data_t) (clk : clock_t) :
    List win_write :=
  [ { row := 9, col := DATAWIN_VALUE_OFFSET + 5, width := 22,
      scr := error_scr d.fix.epx g.altfactor g.altunits },
    { row := 10, col := DATAWIN_VALUE_OFFSET + 5, width := 22,
      scr := error_scr d.fix.epy g.altfactor g.altunits },
    { row := 11, col := DATAWIN_VALUE_OFFSET + 5, width := 22,
      scr := error_scr d.fix.epv g.altfactor g.altunits },
    { row := 12, col := DATAWIN_VALUE_OFFSET + 5, width := 22, scr := epd_scr d.fix },
    { row := 13, col := DATAWIN_VALUE_OFFSET + 5, width := 22,
      scr := error_scr d.fix.eps g.speedfactor g.speedunits },
    { row := 14, col := DATAWIN_VALUE_OFFSET + 5, width := 22, scr := time_offset_scr d.fix clk },
    { row := 15, col := DATAWIN_VALUE_OFFSET + 5, width := 22, scr := grid_square lib d.fix } ]

/-- Every row `update_gps_panel` writes to `datawin`, in the order written. -/
def datawin_rows (lib : gpsd_lib) (g : cgps_t) (d : gps_data_t) (clk : clock_t) :
    List win_write :=
  datawin_mandatory lib g d clk ++
    (if g.window_length ≥ MIN_GPS_DATAWIN_SIZE + 5 then datawin_optional lib g d clk else [])

/-! ## The raw-data line -/

/-- The test `isspace` in the C locale. -/
def isspace (c : Char) : Bool :=
  c = ' ' ∨ c = Char.ofNat 9 ∨ c = Char.ofNat 10 ∨ c = Char.ofNat 11 ∨ c = Char.ofNat 12
    ∨ c = Char.ofNat 13

/-- The loop `for (p = s + strlen(s); --p > s && isspace(*p); *p = '\0')`: white space is
cut from the end; the pointer stops above `s`, so the first character is never looked
at. -/
def trim_tail (s : List Char) : List Char :=
  match s with
  | [] => []
  | c :: rest => c :: (rest.reverse.dropWhile isspace).reverse

/-- The text `wprintw(messages, "%s\n", s)` appends to the log window, if any. -/
def messages_line (g : cgps_t) (d : gps_data_t) : Option String :=
  if g.silent_flag = false ∧ g.raw_flag = true then
    match d.gps_data with
    | some s => some (String.mk (trim_tail s.data) ++ "\n")
    | none => none
  else none

/-! ## The fix state and `update_gps_panel` as a whole -/

/-- The end of `update_gps_panel`: `status_timer` is reset and `state` updated if the state
has changed. -/
def record_state (g : cgps_t) (d : gps_data_t) (clk : clock_t) : cgps_t :=
  if newstate d ≠ g.state then
    { g with status_timer := clk.time_reset, state := newstate d }
  else g

/-- Everything one call of `update_gps_panel` does. -/
structure panel_update where
  satellites : List sat_write
  datawin : List win_write
  messages : Option String
  after : cgps_t

/-- The function `update_gps_panel`, called once for each new GPS sentence. -/
def update_gps_panel (lib : gpsd_lib) (g : cgps_t) (d : gps_data_t) (clk : clock_t) :
    panel_update :=
  { satellites := sat_panel lib.MAXCHANNELS g.display_sats d.satellites_visible d.skyview,
    datawin := datawin_rows lib g d clk,
    messages := messages_line g d,
    after := record_state g d clk }

/-- A sequence of calls of `update_gps_panel`: for each call, whether the state changed in
it and the seconds-in-state value it reported. -/
def run_reports (g : cgps_t) : List (gps_data_t × clock_t) → List (Bool × Int)
  | [] => []
  | (d, clk) :: rest =>
    (decide (newstate d ≠ g.state), seconds_in_state g clk)
      :: run_reports (record_state g d clk) rest

/-- The number of state changes in a sequence of calls. -/
def transitions (reports : List (Bool × Int)) : Nat := (reports.filter (·.1)).length

/-! ## The main loop -/

/-- What one turn of the main loop meets: the answer of `gps_waiting`, the result of
`gps_read` and the value of `errno` after it, the snapshot read, the clock, and the key
`wgetch` returns (`none` when no key is pending). -/
structure turn_t where
  gps_waiting : Bool
  gps_read : Int
  errno : Int
  data : gps_data_t
  clk : clock_t
  key : Option Char

/-- The state the main loop carries from turn to turn. -/
structure loop_t where
  wait_clicks : Int
  g : cgps_t
  deriving DecidableEq, Repr

/-- One turn of `for (;;)` in `main`.  `Except.error sig` is a call `die(sig)`, which
ends the process. -/
def main_turn (s : loop_t) (t : turn_t) : Except Int loop_t :=
  let polled : Except Int loop_t :=
    if t.gps_waiting = false then
      -- `240 < wait_clicks++`: the value before the increment is compared
      if 240 < s.wait_clicks then .error GPS_TIMEOUT
      else .ok { s with wait_clicks := s.wait_clicks + 1 }
    else if t.gps_read = -1 then .error (if t.errno = 0 then GPS_GONE else GPS_ERROR)
    else .ok { wait_clicks := 0, g := record_state s.g t.data t.clk }
  match polled with
  | .error sig => .error sig
  | .ok s1 =>
    if t.key = some 'q' then .error CGPS_QUIT
    else if t.key = some 's' then
      .ok { s1 with g := { s1.g with silent_flag := !s1.g.silent_flag } }
    else .ok s1

/-- The main loop over a sequence of turns, stopping at the first `die`. -/
def main_loop (s : loop_t) : List turn_t → Except Int loop_t
  | [] => .ok s
  | t :: rest =>
    match main_turn s t with
    | .error sig => .error sig
    | .ok s1 => main_loop s1 rest

/-! ## Start-up values and sample inputs -/

/-- The factor `METERS_TO_FEET` of `gps.h`, 3.2808399, as the `float` nearest to it. -/
def METERS_TO_FEET : double := .fin 13760840 (-22)

/-- The factor `MPS_TO_MPH` of `gps.h`, 2.2369363, as the `float` nearest to it. -/
def MPS_TO_MPH : double := .fin 9382391 (-22)

/-- The file-scope variables after `windowsetup()` and `status_timer = time(NULL)` in
`main`, with the static initialisers (imperial units, no flag set) otherwise. -/
def startup (geo : geometry) (now : Int) : cgps_t :=
  { status_timer := now, state := 0,
    altfactor := METERS_TO_FEET, speedfactor := MPS_TO_MPH,
    altunits := "ft", speedunits := "mph",
    raw_flag := geo.raw_flag, silent_flag := false, magnetic_flag := false,
    window_length := geo.window_length, display_sats := geo.display_sats,
    deg_type := .deg_dd }

/-- The variables after the `metric` case of `main`: `altfactor = 1`, `altunits = "m"`,
`speedfactor = MPS_TO_KPH`, `speedunits = "kph"`. -/
def startup_metric (geo : geometry) (now : Int) : cgps_t :=
  { startup geo now with
    altfactor := of_int 1, altunits := "m",
    speedfactor := .fin 15099494 (-22), speedunits := "kph" }

/-- A fix of the given mode with every value present: latitude 37.5, longitude -122.25,
altitude 30 m, track 90 degrees, speed 10 m/s, climb 0.5 m/s. -/
def sample_fix (mode : Int) : gps_fix_t :=
  { mode := mode, time := .fin 1351641600 0,
    latitude := .fin 75 (-1), longitude := .fin (-489) (-2), altitude := .fin 30 0,
    track := .fin 90 0, speed := .fin 10 0, climb := .fin 1 (-1),
    epx := .fin 5 0, epy := .fin 5 0, epv := .fin 8 0, epd := .fin 2 0, eps := .fin 1 0 }

/-- An on-line snapshot carrying the given fix and no satellites. -/
def sample_data (online : Bool) (fix : gps_fix_t) : gps_data_t :=
  { online := online, fix := fix, satellites_visible := 0,
    skyview := sky_with_used [], gps_data := none }

/-- A clock on which every reading of one call shows the same second. -/
def clock_at (now : Int) : clock_t :=
  { time_status := now, timestamp := .fin now 0, time_reset := now }

/-- Stand-ins for the library routines, so that `update_gps_panel` can be evaluated as a
whole at a concrete snapshot: a fixed time stamp, degrees with six decimals, no magnetic
correction, a fixed grid square. -/
def sample_lib : gpsd_lib :=
  { MAXCHANNELS := 72,
    unix_to_iso8601 := fun _ => "2012-10-31T00:00:00.000Z",
    deg_to_str := fun _ x => fmt_f 6 x,
    true2magnetic := fun _ _ _ => .nan,
    maidenhead := fun _ _ => "CM87wk" }

/-- A turn of the main loop in which `gps_waiting` reports nothing and no key is
pending. -/
def idle_turn : turn_t :=
  { gps_waiting := false, gps_read := 0, errno := 0,
    data := sample_data true (sample_fix 3), clk := clock_at 0, key := none }

/-! ## Windows and labels of `windowsetup`, and `resize` -/

/-- The number of rows of the `messages` window that `windowsetup` creates when `raw_flag`
is set: `newwin(ysize - (window_length), xsize, window_length, 0)`; `none` when no such
window is created. -/
def messages_rows (ysize : Int) (geo : geometry) : Option Int :=
  if geo.raw_flag = true then some (ysize - geo.window_length) else none

/-- One `mvwprintw(datawin, row, DATAWIN_DESC_OFFSET, text)` call of `windowsetup`. -/
structure label where
  row : Nat
  col : Nat
  text : String
  deriving DecidableEq, Repr

/-- The field labels `windowsetup` writes to `datawin` (GPS mode): eight always, seven
more when `window_length == MAX_GPS_DATAWIN_SIZE`. -/
def datawin_labels (window_length : Int) : List label :=
  [ { row := 1, col := DATAWIN_DESC_OFFSET, text := "Time:" },
    { row := 2, col := DATAWIN_DESC_OFFSET, text := "Latitude:" },
    { row := 3, col := DATAWIN_DESC_OFFSET, text := "Longitude:" },
    { row := 4, col := DATAWIN_DESC_OFFSET, text := "Altitude:" },
    { row := 5, col := DATAWIN_DESC_OFFSET, text := "Speed:" },
    { row := 6, col := DATAWIN_DESC_OFFSET, text := "Heading:" },
    { row := 7, col := DATAWIN_DESC_OFFSET, text := "Climb:" },
    { row := 8, col := DATAWIN_DESC_OFFSET, text := "Status:" } ] ++
  (if window_length = MAX_GPS_DATAWIN_SIZE then
    [ { row := 9, col := DATAWIN_DESC_OFFSET, text := "Longitude Err:" },
      { row := 10, col := DATAWIN_DESC_OFFSET, text := "Latitude Err:" },
      { row := 11, col := DATAWIN_DESC_OFFSET, text := "Altitude Err:" },
      { row := 12, col := DATAWIN_DESC_OFFSET, text := "Course Err:" },
      { row := 13, col := DATAWIN_DESC_OFFSET, text := "Speed Err:" },
      { row := 14, col := DATAWIN_DESC_OFFSET, text := "Time offset:" },
      { row := 15, col := DATAWIN_DESC_OFFSET, text := "Grid Square:" } ]
   else [])

/-- The handler `resize`: unless curses has been shut down already (`isendwin()`), it
calls `endwin()` and runs `windowsetup()` again, which reads the new row count `ysize`;
otherwise the geometry stays as it is. -/
def resize (isendwin : Bool) (ysize : Int) (current : geometry) : Except fatal geometry :=
  if isendwin = false then windowsetup ysize else .ok current

/-! ## The trimming loop, step by step, and right-trimming as the specification words it -/

/-- The loop `for (p = s + strlen(s); --p > s && isspace(*p); *p = '\0')` one test at a
time.  The first argument is the offset of `p` from `s` before `--p`, the second the
characters of the string up to its terminator.  `--p > s` fails when the offset reaches
0; otherwise the character at the new offset is tested and, if it is white space,
overwritten by the terminator. -/
def trim_loop : (offset : Nat) → List Char → List Char
  | 0, s => s
  | p + 1, s =>
    if 0 < p ∧ isspace (s.getD p ' ') = true then trim_loop p (s.take p) else s

/-- A line right-trimmed of trailing white space, as the specification words it: the
line with its longest suffix of white-space characters removed. -/
def right_trimmed (s : List Char) : List Char := (s.reverse.dropWhile isspace).reverse

/-- An on-line 3D snapshot with the given number of visible satellites, of which the slots
listed are used in the fix. -/
def sample_sky_data (satellites_visible : Int) (used : List Nat) : gps_data_t :=
  { sample_data true (sample_fix 3) with
    satellites_visible := satellites_visible, skyview := sky_with_used used }

/-- An on-line 3D snapshot whose raw-data text is the given line. -/
def sample_raw_data (line : String) : gps_data_t :=
  { sample_data true (sample_fix 3) with gps_data := some line }

end Cgps

namespace Cgps

/-! ## Theorems: layout planner -/

/-- The numeric values of the two sizes. -/
theorem datawin_sizes : MIN_GPS_DATAWIN_SIZE = 10 ∧ MAX_GPS_DATAWIN_SIZE = 17 := by
  constructor <;> rfl

/-- The size decision of `windowsetup` written out on the five ranges of the row count. -/
theorem windowsetup_cases (rows : Int) :
    (17 < rows → windowsetup rows = .ok ⟨true, 17, 13⟩) ∧
    (rows = 17 → windowsetup rows = .ok ⟨false, 17, 14⟩) ∧
    (10 < rows → rows < 17 → windowsetup rows = .ok ⟨true, 10, 6⟩) ∧
    (rows = 10 → windowsetup rows = .ok ⟨false, 10, 7⟩) ∧
    (rows < 10 → windowsetup rows =
      .error ⟨"Your screen must be at least 80x10 to run cgps.", 0⟩) := by
  obtain ⟨hmin, hmax⟩ := datawin_sizes
  have hmsg : screen_too_small 10 = "Your screen must be at least 80x10 to run cgps." := by
    decide
  unfold windowsetup
  simp only [hmin, hmax, hmsg]
  refine ⟨fun h => ?_, fun h => ?_, fun h h' => ?_, fun h => ?_, fun h => ?_⟩
  · rw [if_pos h]; rfl
  · rw [if_neg (by omega), if_pos h]; rfl
  · rw [if_neg (by omega), if_neg (by omega), if_pos h]; rfl
  · rw [if_neg (by omega), if_neg (by omega), if_neg (by omega), if_pos h]; rfl
  · rw [if_neg (by omega), if_neg (by omega), if_neg (by omega), if_neg (by omega)]

/-- C1: for every row count `rows ≥ 10` the size decision of `windowsetup` succeeds and
follows the four-case policy: more than 17 rows give height 17 with a log panel, exactly
17 rows give height 17 without one, between 11 and 16 rows give height 10 with a log
panel, exactly 10 rows give height 10 without one. -/
theorem windowsetup_four_case_policy (rows : Int) (h : 10 ≤ rows) :
    ∃ g, windowsetup rows = .ok g ∧
      (17 < rows → g.window_length = 17 ∧ g.raw_flag = true) ∧
      (rows = 17 → g.window_length = 17 ∧ g.raw_flag = false) ∧
      (10 < rows ∧ rows < 17 → g.window_length = 10 ∧ g.raw_flag = true) ∧
      (rows = 10 → g.window_length = 10 ∧ g.raw_flag = false) := by
  obtain ⟨c1, c2, c3, c4, -⟩ := windowsetup_cases rows
  by_cases h1 : 17 < rows
  · exact ⟨_, c1 h1, fun _ => ⟨rfl, rfl⟩, by omega, by omega, by omega⟩
  · by_cases h2 : rows = 17
    · exact ⟨_, c2 h2, by omega, fun _ => ⟨rfl, rfl⟩, by omega, by omega⟩
    · by_cases h3 : 10 < rows
      · exact ⟨_, c3 h3 (by omega), by omega, by omega, fun _ => ⟨rfl, rfl⟩, by omega⟩
      · exact ⟨_, c4 (by omega), by omega, by omega, by omega, fun _ => ⟨rfl, rfl⟩⟩

/-- The four-case policy at the four boundary row counts 10, 11, 17 and 18. -/
theorem windowsetup_four_case_policy_witness :
    ((10 : Int) ≤ 18) ∧
    (∃ g, windowsetup 18 = .ok g ∧
      ((17 : Int) < 18 → g.window_length = 17 ∧ g.raw_flag = true) ∧
      ((18 : Int) = 17 → g.window_length = 17 ∧ g.raw_flag = false) ∧
      ((10 : Int) < 18 ∧ (18 : Int) < 17 → g.window_length = 10 ∧ g.raw_flag = true) ∧
      ((18 : Int) = 10 → g.window_length = 10 ∧ g.raw_flag = false)) ∧
    windowsetup 10 = .ok ⟨false, 10, 7⟩ ∧ windowsetup 11 = .ok ⟨true, 10, 6⟩ ∧
    windowsetup 17 = .ok ⟨false, 17, 14⟩ ∧ windowsetup 18 = .ok ⟨true, 17, 13⟩ :=
  ⟨by decide, windowsetup_four_case_policy 18 (by decide), by decide, by decide, by decide,
    by decide⟩

/-- C2: the size decision of `windowsetup` fails exactly when the row count is below 10.
For every `rows < 10` it takes the last branch, whose message names the minimum 10
(`MIN_GPS_DATAWIN_SIZE`) and which ends the process through `die(0)` without a geometry;
for every `rows ≥ 10` it yields a geometry and never that branch. -/
theorem windowsetup_fails_iff_below_minimum (rows : Int) :
    (windowsetup rows =
        .error ⟨"Your screen must be at least 80x10 to run cgps.", 0⟩ ↔ rows < 10) ∧
    ((∃ f, windowsetup rows = .error f) ↔ rows < 10) ∧
    ((∃ g, windowsetup rows = .ok g) ↔ 10 ≤ rows) ∧
    screen_too_small MIN_GPS_DATAWIN_SIZE =
      "Your screen must be at least 80x10 to run cgps." := by
  obtain ⟨c1, c2, c3, c4, c5⟩ := windowsetup_cases rows
  have hmsg : screen_too_small MIN_GPS_DATAWIN_SIZE =
      "Your screen must be at least 80x10 to run cgps." := by decide
  by_cases h : rows < 10
  · have hw := c5 h
    refine ⟨⟨fun _ => h, fun _ => hw⟩, ⟨fun _ => h, fun _ => ⟨_, hw⟩⟩, ⟨?_, by omega⟩, hmsg⟩
    rintro ⟨g, hg⟩
    rw [hw] at hg
    cases hg
  · have hok : ∃ g, windowsetup rows = .ok g := by
      by_cases h1 : 17 < rows
      · exact ⟨_, c1 h1⟩
      · by_cases h2 : rows = 17
        · exact ⟨_, c2 h2⟩
        · by_cases h3 : 10 < rows
          · exact ⟨_, c3 h3 (by omega)⟩
          · exact ⟨_, c4 (by omega)⟩
    obtain ⟨g, hg⟩ := hok
    refine ⟨⟨?_, by omega⟩, ⟨?_, by omega⟩, ⟨fun _ => by omega, fun _ => ⟨g, hg⟩⟩, hmsg⟩
    · intro he
      rw [hg] at he
      cases he
    · rintro ⟨f, hf⟩
      rw [hg] at hf
      cases hf

/-! ## Theorems: satellite selection -/

theorem shown_slots_place (n : Nat) (l : List Nat) : shown_slots (place n l) = l := by
  induction l generalizing n with
  | nil => rfl
  | cons a l ih =>
    show shown_slots ({ row := n + 2, slot := some a } :: place (n + 1) l) = a :: l
    simp only [shown_slots, List.filterMap_cons] at ih ⊢
    rw [ih (n + 1)]

theorem real_rows_place (n : Nat) (l : List Nat) : real_rows (place n l) = place n l := by
  induction l generalizing n with
  | nil => rfl
  | cons a l ih =>
    show real_rows ({ row := n + 2, slot := some a } :: place (n + 1) l) = _
    unfold real_rows at ih ⊢
    rw [List.filter_cons_of_pos (by rfl), ih (n + 1)]
    rfl

theorem length_place (n : Nat) (l : List Nat) : (place n l).length = l.length := by
  induction l generalizing n with
  | nil => rfl
  | cons a l ih =>
    show (place (n + 1) l).length + 1 = l.length + 1
    rw [ih (n + 1)]

theorem place_range' (n k : Nat) :
    place n (List.range' n k) = (List.range' n k).map (fun i => { row := i + 2, slot := some i }) := by
  induction k generalizing n with
  | zero => rfl
  | succ k ih =>
    rw [List.range'_succ]
    show { row := n + 2, slot := some n } :: place (n + 1) (List.range' (n + 1) k) = _
    rw [ih (n + 1)]
    rfl

theorem shown_slots_blank (count i : Nat) : shown_slots (sat_rows_blank count i) = [] := by
  induction count generalizing i with
  | zero => rfl
  | succ c ih =>
    show shown_slots ({ row := i + 2, slot := none } :: sat_rows_blank c (i + 1)) = []
    simp only [shown_slots, List.filterMap_cons] at ih ⊢
    exact ih (i + 1)

theorem real_rows_blank (count i : Nat) : real_rows (sat_rows_blank count i) = [] := by
  induction count generalizing i with
  | zero => rfl
  | succ c ih =>
    show real_rows ({ row := i + 2, slot := none } :: sat_rows_blank c (i + 1)) = []
    unfold real_rows at ih ⊢
    rw [List.filter_cons_of_neg (by simp)]
    exact ih (i + 1)

theorem length_blank (count i : Nat) : (sat_rows_blank count i).length = count := by
  induction count generalizing i with
  | zero => rfl
  | succ c ih =>
    show (sat_rows_blank c (i + 1)).length + 1 = c + 1
    rw [ih (i + 1)]

/-- The selecting loop shows the first `display_sats - n` qualifying slots, in rows
`n + 2` onwards, and counts them. -/
theorem sat_rows_select_eq (ds vis : Int) (sky : Nat → satellite_t) (count i n : Nat) :
    sat_rows_select ds vis sky count i n =
      (place n (((List.range' i count).filter (qualifies ds vis sky)).take (ds.toNat - n)),
       n + (((List.range' i count).filter (qualifies ds vis sky)).take (ds.toNat - n)).length) := by
  induction count generalizing i n with
  | zero => simp [sat_rows_select, place]
  | succ c ih =>
    rw [List.range'_succ]
    unfold sat_rows_select
    by_cases hn : (n : Int) < ds
    · rw [if_pos hn]
      have hk : ds.toNat - n = (ds.toNat - (n + 1)) + 1 := by omega
      by_cases hq : (i : Int) < vis ∧ ((sky i).used = true ∨ vis ≤ ds)
      · rw [if_pos hq]
        have hq' : qualifies ds vis sky i = true := by
          unfold qualifies; exact decide_eq_true hq
        rw [List.filter_cons_of_pos hq', hk, List.take_succ_cons, ih (i + 1) (n + 1)]
        simp only [place, List.length_cons]
        congr 1
        omega
      · rw [if_neg hq]
        have hq' : ¬ (qualifies ds vis sky i = true) := by
          unfold qualifies; simpa using hq
        rw [List.filter_cons_of_neg hq', ih (i + 1) n]
    · rw [if_neg hn]
      have hk : ds.toNat - n = 0 := by omega
      rw [ih (i + 1) n, hk]
      simp only [List.take_zero]

theorem filter_range'_lt (vis : Int) (m : Nat) (h : vis.toNat ≤ m) :
    (List.range' 0 m).filter (fun (j : Nat) => decide ((j : Int) < vis)) = List.range vis.toNat := by
  rw [← List.range_eq_range']
  induction m with
  | zero =>
    have : vis.toNat = 0 := by omega
    rw [this]; rfl
  | succ m ih =>
    rw [List.range_succ, List.filter_append]
    by_cases hm : vis.toNat ≤ m
    · rw [ih hm]
      have : ¬ ((m : Int) < vis) := by omega
      simp [this]
    · have hv : vis.toNat = m + 1 := by omega
      have hall : ∀ j ∈ List.range m, decide ((j : Int) < vis) = true := by
        intro j hj
        have := List.mem_range.mp hj
        exact decide_eq_true (by omega)
      rw [List.filter_eq_self.mpr hall, hv, List.range_succ]
      have : (m : Int) < vis := by omega
      simp [this]

theorem real_rows_all (vis : Int) (count i : Nat) :
    real_rows (sat_rows_all vis count i) =
      ((List.range' i count).filter (fun (j : Nat) => decide ((j : Int) < vis))).map
        (fun j => { row := j + 2, slot := some j }) := by
  induction count generalizing i with
  | zero => rfl
  | succ c ih =>
    rw [List.range'_succ]
    unfold sat_rows_all
    unfold real_rows at ih ⊢
    by_cases h : (i : Int) < vis
    · rw [if_pos h, List.filter_cons_of_pos (by rfl), List.filter_cons_of_pos (by simpa using h),
        ih (i + 1)]
      rfl
    · rw [if_neg h, List.filter_cons_of_neg (by simp), List.filter_cons_of_neg (by simpa using h),
        ih (i + 1)]

theorem shown_slots_real_rows (ws : List sat_write) :
    shown_slots (real_rows ws) = shown_slots ws := by
  induction ws with
  | nil => rfl
  | cons w ws ih =>
    unfold real_rows shown_slots at ih ⊢
    cases hw : w.slot with
    | none =>
      rw [List.filter_cons_of_neg (by simp [hw]), ih, List.filterMap_cons_none hw]
    | some k =>
      rw [List.filter_cons_of_pos (by simp [hw]), List.filterMap_cons_some hw,
        List.filterMap_cons_some hw, ih]

theorem shown_slots_map_some (l : List Nat) :
    shown_slots (l.map (fun j => ({ row := j + 2, slot := some j } : sat_write))) = l := by
  induction l with
  | nil => rfl
  | cons a l ih =>
    unfold shown_slots at ih ⊢
    rw [List.map_cons, List.filterMap_cons_some (by rfl), ih]

/-- The second branch of `sat_panel`: the rows that show a satellite are the first
`display_sats` qualifying slots, in rows 2 onwards. -/
theorem real_rows_select_branch (MAXCHANNELS ds vis : Int) (sky : Nat → satellite_t)
    (hvis : vis ≠ 0) (hds : ds < MAX_POSSIBLE_SATS MAXCHANNELS) :
    real_rows (sat_panel MAXCHANNELS ds vis sky) =
      place 0 (((List.range' 0 (MAX_POSSIBLE_SATS MAXCHANNELS).toNat).filter
        (qualifies ds vis sky)).take ds.toNat) := by
  unfold sat_panel
  rw [if_pos hvis, if_neg (by omega)]
  simp only [sat_rows_select_eq, Nat.sub_zero]
  split
  · unfold real_rows
    rw [List.filter_append]
    have := real_rows_blank
    unfold real_rows at this
    rw [this, List.append_nil]
    exact real_rows_place _ _
  · exact real_rows_place _ _

/-- In the second branch, whenever fewer than `display_sats` entries are shown, the rows
written, shown and empty together, number `display_sats + 1`. -/
theorem sat_panel_row_count (MAXCHANNELS ds vis : Int) (sky : Nat → satellite_t)
    (hvis : vis ≠ 0) (hds : ds < MAX_POSSIBLE_SATS MAXCHANNELS)
    (hfew : ((shown_slots (sat_panel MAXCHANNELS ds vis sky)).length : Int) < ds) :
    ((sat_panel MAXCHANNELS ds vis sky).length : Int) = ds + 1 := by
  have hs : shown_slots (sat_panel MAXCHANNELS ds vis sky)
      = ((List.range' 0 (MAX_POSSIBLE_SATS MAXCHANNELS).toNat).filter
          (qualifies ds vis sky)).take ds.toNat := by
    rw [← shown_slots_real_rows, real_rows_select_branch _ _ _ _ hvis hds, shown_slots_place]
  rw [hs] at hfew
  unfold sat_panel
  rw [if_pos hvis, if_neg (by omega)]
  simp only [sat_rows_select_eq, Nat.sub_zero, Nat.zero_add]
  rw [if_pos hfew, List.length_append, length_place, length_blank]
  omega

/-- C3 (the code at the failing inputs): with 43 visible satellites, 5 of them used, and
`display_sats = 12` the selection writes 13 rows, the 5 used entries in rows 2..6 and
empty rows in rows 7..14; with the geometry of a 10-row terminal (`display_sats = 7`,
window of 10 rows) it writes 8 rows, the last of them in row 9, the bottom border row. -/
theorem sat_panel_blank_fill_overruns :
    (sat_panel 72 12 43 (sky_with_used [0, 3, 7, 20, 41])).length = 13 ∧
    sat_panel 72 12 43 (sky_with_used [0, 3, 7, 20, 41]) =
      [⟨2, some 0⟩, ⟨3, some 3⟩, ⟨4, some 7⟩, ⟨5, some 20⟩, ⟨6, some 41⟩, ⟨7, none⟩, ⟨8, none⟩,
       ⟨9, none⟩, ⟨10, none⟩, ⟨11, none⟩, ⟨12, none⟩, ⟨13, none⟩, ⟨14, none⟩] ∧
    windowsetup 10 = .ok ⟨false, 10, 7⟩ ∧
    sat_panel 72 7 43 (sky_with_used [0, 3, 7, 20, 41]) =
      [⟨2, some 0⟩, ⟨3, some 3⟩, ⟨4, some 7⟩, ⟨5, some 20⟩, ⟨6, some 41⟩, ⟨7, none⟩, ⟨8, none⟩,
       ⟨9, none⟩] := by
  refine ⟨by decide, by decide, by decide, by decide⟩

/-- When `satellites_visible ≤ display_sats` and `satellites_visible` does not exceed
`MAX_POSSIBLE_SATS`, the bound of both loops, every visible satellite (slots
`0 .. satellites_visible - 1`) is shown exactly once, in input order, slot `i` in row
`i + 2`, whatever its used-in-fix flag, and no slot `≥ satellites_visible` is shown. -/
theorem sat_panel_shows_visible_below_max (MAXCHANNELS display_sats satellites_visible : Int)
    (skyview : Nat → satellite_t) (h : satellites_visible ≤ display_sats)
    (hmax : satellites_visible ≤ MAX_POSSIBLE_SATS MAXCHANNELS) :
    shown_slots (sat_panel MAXCHANNELS display_sats satellites_visible skyview)
      = List.range satellites_visible.toNat ∧
    real_rows (sat_panel MAXCHANNELS display_sats satellites_visible skyview)
      = (List.range satellites_visible.toNat).map (fun i => { row := i + 2, slot := some i }) := by
  have key : real_rows (sat_panel MAXCHANNELS display_sats satellites_visible skyview)
      = (List.range satellites_visible.toNat).map
          (fun i => ({ row := i + 2, slot := some i } : sat_write)) := by
    by_cases hvis : satellites_visible = 0
    · unfold sat_panel
      rw [if_neg (by simpa using hvis), hvis]
      rfl
    · by_cases hds : display_sats ≥ MAX_POSSIBLE_SATS MAXCHANNELS
      · unfold sat_panel
        rw [if_pos hvis, if_pos hds, real_rows_all, filter_range'_lt _ _ (by omega)]
      · rw [real_rows_select_branch _ _ _ _ hvis (by omega)]
        have hq : qualifies display_sats satellites_visible skyview
            = fun (j : Nat) => decide ((j : Int) < satellites_visible) := by
          funext j
          unfold qualifies
          simp [h]
        rw [hq, filter_range'_lt _ _ (by omega),
          List.take_of_length_le (by rw [List.length_range]; omega), List.range_eq_range',
          place_range']
  refine ⟨?_, key⟩
  rw [← shown_slots_real_rows, key, shown_slots_map_some]

/-- The row budgets `windowsetup` can choose: 13, 14, 6 and 7, none above 14. -/
theorem windowsetup_display_sats (rows : Int) (geo : geometry)
    (h : windowsetup rows = .ok geo) :
    geo.display_sats = 13 ∨ geo.display_sats = 14 ∨ geo.display_sats = 6
      ∨ geo.display_sats = 7 := by
  obtain ⟨c1, c2, c3, c4, c5⟩ := windowsetup_cases rows
  by_cases h1 : 17 < rows
  · rw [c1 h1] at h; cases h; exact Or.inl rfl
  · by_cases h2 : rows = 17
    · rw [c2 h2] at h; cases h; exact Or.inr (Or.inl rfl)
    · by_cases h3 : 10 < rows
      · rw [c3 h3 (by omega)] at h; cases h; exact Or.inr (Or.inr (Or.inl rfl))
      · by_cases h4 : rows = 10
        · rw [c4 h4] at h; cases h; exact Or.inr (Or.inr (Or.inr rfl))
        · rw [c5 (by omega)] at h; cases h

/-- C4: for every satellite list and every row budget `display_sats` that `windowsetup`
assigns, with `MAXCHANNELS` large as the source says it is (16 or more is enough), when
`satellites_visible ≤ display_sats` every visible satellite (slots
`0 .. satellites_visible - 1`) is shown exactly once, in input order, slot `i` in row
`i + 2`, whatever its used-in-fix flag, and no slot `≥ satellites_visible` is shown. -/
theorem sat_panel_shows_all_visible (MAXCHANNELS rows : Int) (geo : geometry)
    (satellites_visible : Int) (skyview : Nat → satellite_t) (hM : 16 ≤ MAXCHANNELS)
    (hgeo : windowsetup rows = .ok geo) (h : satellites_visible ≤ geo.display_sats) :
    shown_slots (sat_panel MAXCHANNELS geo.display_sats satellites_visible skyview)
      = List.range satellites_visible.toNat ∧
    real_rows (sat_panel MAXCHANNELS geo.display_sats satellites_visible skyview)
      = (List.range satellites_visible.toNat).map (fun i => { row := i + 2, slot := some i }) ∧
    (∀ i ∈ shown_slots (sat_panel MAXCHANNELS geo.display_sats satellites_visible skyview),
      (i : Int) < satellites_visible) ∧
    (shown_slots (sat_panel MAXCHANNELS geo.display_sats satellites_visible skyview)).Nodup := by
  have hds := windowsetup_display_sats rows geo hgeo
  have hmax : satellites_visible ≤ MAX_POSSIBLE_SATS MAXCHANNELS := by
    unfold MAX_POSSIBLE_SATS
    omega
  obtain ⟨hs, hr⟩ := sat_panel_shows_visible_below_max MAXCHANNELS geo.display_sats
    satellites_visible skyview h hmax
  refine ⟨hs, hr, ?_, ?_⟩
  · intro i hi
    rw [hs] at hi
    have := List.mem_range.mp hi
    omega
  · rw [hs]
    exact List.nodup_range _

/-- C4 on a 10-row terminal (row budget 7) with 72 channels: 3 visible satellites, none of
them used in the fix, are shown in rows 2, 3 and 4; and on a 17-row terminal (row budget
14) 14 visible satellites are shown in rows 2..15. -/
theorem sat_panel_shows_all_visible_witness :
    ((16 : Int) ≤ 72 ∧ windowsetup 10 = .ok ⟨false, 10, 7⟩
      ∧ (3 : Int) ≤ (⟨false, 10, 7⟩ : geometry).display_sats) ∧
    (shown_slots (sat_panel 72 (⟨false, 10, 7⟩ : geometry).display_sats 3 (sky_with_used []))
      = List.range (3 : Int).toNat ∧
     real_rows (sat_panel 72 (⟨false, 10, 7⟩ : geometry).display_sats 3 (sky_with_used []))
      = (List.range (3 : Int).toNat).map (fun i => { row := i + 2, slot := some i }) ∧
     (∀ i ∈ shown_slots (sat_panel 72 (⟨false, 10, 7⟩ : geometry).display_sats 3
        (sky_with_used [])), (i : Int) < 3) ∧
     (shown_slots (sat_panel 72 (⟨false, 10, 7⟩ : geometry).display_sats 3
        (sky_with_used []))).Nodup) ∧
    shown_slots (sat_panel 72 7 3 (sky_with_used [])) = [0, 1, 2] ∧
    shown_slots (sat_panel 72 14 14 (sky_with_used []))
      = [0, 1, 2, 3, 4, 5, 6, 7, 8, 9, 10, 11, 12, 13] :=
  ⟨⟨by decide, by decide, by decide⟩,
    sat_panel_shows_all_visible 72 10 ⟨false, 10, 7⟩ 3 (sky_with_used []) (by decide)
      (by decide) (by decide),
    by decide, by decide⟩

/-- C5 as stated fails twice.  In the first branch (`MAXCHANNELS = 14`, the geometry of a
terminal of more than 17 rows, `display_sats = 13`, 14 visible satellites, none used) 12
entries are shown although none is used in the fix.  In the second branch
(`MAXCHANNELS = 72`, `display_sats = 7`, 72 visible satellites of which only slot 71 is
used) the first `min 7 1` used visible satellites are `[71]`, yet nothing is shown. -/
theorem sat_panel_truncated_counterexample :
    (windowsetup 18 = .ok ⟨true, 17, 13⟩ ∧ (14 : Int) > 13 ∧
      shown_slots (sat_panel 14 13 14 (sky_with_used [])) = List.range 12 ∧
      (sky_with_used [] 0).used = false) ∧
    ((72 : Int) > 7 ∧
      (used_visible 72 (sky_with_used [71])).take (min 7 1) = [71] ∧
      shown_slots (sat_panel 72 7 72 (sky_with_used [71])) = []) := by
  refine ⟨⟨by decide, by decide, by decide, by decide⟩, by decide, by decide, by decide⟩

/-- C5 (amended): when `display_sats < MAX_POSSIBLE_SATS` (the second branch) and
`satellites_visible > display_sats`, every entry shown has used-in-fix set and lies below
`satellites_visible`, and the entries shown are exactly the first
`min display_sats (number of used satellites among the visited slots)` used-in-fix
satellites among the visited slots (those below both `satellites_visible` and
`MAX_POSSIBLE_SATS`), in input order, in consecutive rows starting at row 2. -/
theorem sat_panel_truncated_shows_used (MAXCHANNELS display_sats satellites_visible : Int)
    (skyview : Nat → satellite_t) (hds : display_sats < MAX_POSSIBLE_SATS MAXCHANNELS)
    (h : satellites_visible > display_sats) :
    shown_slots (sat_panel MAXCHANNELS display_sats satellites_visible skyview)
      = (used_tracked MAXCHANNELS satellites_visible skyview).take display_sats.toNat ∧
    real_rows (sat_panel MAXCHANNELS display_sats satellites_visible skyview)
      = place 0 ((used_tracked MAXCHANNELS satellites_visible skyview).take display_sats.toNat) ∧
    (shown_slots (sat_panel MAXCHANNELS display_sats satellites_visible skyview)).length
      = min display_sats.toNat (used_tracked MAXCHANNELS satellites_visible skyview).length ∧
    ∀ i ∈ shown_slots (sat_panel MAXCHANNELS display_sats satellites_visible skyview),
      (skyview i).used = true ∧ (i : Int) < satellites_visible := by
  have hq : qualifies display_sats satellites_visible skyview
      = fun (i : Nat) => decide ((i : Int) < satellites_visible) && (skyview i).used := by
    funext j
    unfold qualifies
    have : ¬ (satellites_visible ≤ display_sats) := by omega
    simp [this]
  have key : real_rows (sat_panel MAXCHANNELS display_sats satellites_visible skyview)
      = place 0 ((used_tracked MAXCHANNELS satellites_visible skyview).take
          display_sats.toNat) := by
    by_cases hvis : satellites_visible = 0
    · have h0 : display_sats.toNat = 0 := by omega
      unfold sat_panel
      rw [if_neg (by simpa using hvis), h0]
      rfl
    · rw [real_rows_select_branch _ _ _ _ hvis hds, hq, ← List.range_eq_range']
      rfl
  have hs : shown_slots (sat_panel MAXCHANNELS display_sats satellites_visible skyview)
      = (used_tracked MAXCHANNELS satellites_visible skyview).take display_sats.toNat := by
    rw [← shown_slots_real_rows, key, shown_slots_place]
  refine ⟨hs, key, ?_, ?_⟩
  · rw [hs, List.length_take]
  · intro i hi
    rw [hs] at hi
    have hi' := List.mem_of_mem_take hi
    unfold used_tracked at hi'
    have := (List.mem_filter.mp hi').2
    simp only [Bool.and_eq_true, decide_eq_true_eq] at this
    exact ⟨this.2, this.1⟩

/-- The amended C5 at 43 visible satellites, 5 of them used, on a 12-row budget. -/
theorem sat_panel_truncated_shows_used_witness :
    ((12 : Int) < MAX_POSSIBLE_SATS 72 ∧ (43 : Int) > 12) ∧
    shown_slots (sat_panel 72 12 43 (sky_with_used [0, 3, 7, 20, 41])) = [0, 3, 7, 20, 41] ∧
    (shown_slots (sat_panel 72 12 43 (sky_with_used [0, 3, 7, 20, 41]))
      = (used_tracked 72 43 (sky_with_used [0, 3, 7, 20, 41])).take (12 : Int).toNat ∧
    real_rows (sat_panel 72 12 43 (sky_with_used [0, 3, 7, 20, 41]))
      = place 0 ((used_tracked 72 43 (sky_with_used [0, 3, 7, 20, 41])).take (12 : Int).toNat) ∧
    (shown_slots (sat_panel 72 12 43 (sky_with_used [0, 3, 7, 20, 41]))).length
      = min (12 : Int).toNat (used_tracked 72 43 (sky_with_used [0, 3, 7, 20, 41])).length ∧
    ∀ i ∈ shown_slots (sat_panel 72 12 43 (sky_with_used [0, 3, 7, 20, 41])),
      (sky_with_used [0, 3, 7, 20, 41] i).used = true ∧ (i : Int) < 43) :=
  ⟨by decide, by decide,
    sat_panel_truncated_shows_used 72 12 43 (sky_with_used [0, 3, 7, 20, 41]) (by decide)
      (by decide)⟩

/-! ## Theorems: data fields -/

theorem snprintf_na : snprintf "n/a" = "n/a" := by decide

theorem length_chars (n : Nat) (c : Char) : (chars n c).length = n := by
  unfold chars
  rw [String.length_mk, List.length_replicate]

/-- The text `"%-*s"` puts on the screen is as long as the wider of the field and the
string. -/
theorem length_pad_left_justified (width : Nat) (s : String) :
    (pad_left_justified width s).length = max width s.length := by
  unfold pad_left_justified
  rw [String.length_append, length_chars]
  omega

/-- For time, latitude, longitude, altitude, heading and climb an absent value leaves
`"n/a"` in `scr`; the speed row shows `"n/a"` when the track is absent. -/
theorem absent_value_scr (lib : gpsd_lib) (g : cgps_t) (fix : gps_fix_t) :
    (isnan fix.time = true → time_scr lib fix = "n/a") ∧
    (isnan fix.latitude = true → latitude_scr lib g fix = "n/a") ∧
    (isnan fix.longitude = true → longitude_scr lib g fix = "n/a") ∧
    (isnan fix.altitude = true → altitude_scr g fix = "n/a") ∧
    (isnan fix.track = true → heading_scr lib g fix = "n/a") ∧
    (isnan fix.climb = true → climb_scr g fix = "n/a") ∧
    (isnan fix.track = true → speed_scr g fix = "n/a") := by
  refine ⟨fun h => ?_, fun h => ?_, fun h => ?_, fun h => ?_, fun h => ?_, fun h => ?_,
    fun h => ?_⟩
  · simp [time_scr, h, snprintf_na]
  · simp [latitude_scr, h, snprintf_na]
  · simp [longitude_scr, h, snprintf_na]
  · simp [altitude_scr, h, snprintf_na]
  · simp [heading_scr, h, snprintf_na]
  · simp [climb_scr, h, snprintf_na]
  · simp [speed_scr, h, snprintf_na]

/-- C6 (the code at the failing input): for a 3D fix whose speed is absent and whose track
is present (90 degrees), the speed row, the fifth row `update_gps_panel` writes, does not
hold `"n/a"` but the formatted not-a-number, `"nan mph"`, padded to 27 columns; with the
speed present and the track absent it holds `"n/a"`. -/
theorem speed_absent_renders_nan :
    isnan ({ sample_fix 3 with speed := .nan }).speed = true ∧
    (update_gps_panel sample_lib (startup ⟨true, 17, 13⟩ 100)
        (sample_data true { sample_fix 3 with speed := .nan }) (clock_at 105)).datawin.get? 4
      = some ⟨5, 17, 27, "nan mph"⟩ ∧
    speed_scr (startup ⟨true, 17, 13⟩ 100) { sample_fix 3 with speed := .nan } = "nan mph" ∧
    win_write.text ⟨5, 17, 27, "nan mph"⟩ = "nan mph                    " ∧
    win_write.text ⟨5, 17, 27, "nan mph"⟩ ≠ pad_left_justified 27 "n/a" ∧
    speed_scr (startup ⟨true, 17, 13⟩ 100) (sample_fix 3) = "22.4 mph" ∧
    speed_scr (startup ⟨true, 17, 13⟩ 100) { sample_fix 3 with track := .nan } = "n/a" := by
  refine ⟨by decide, by decide, by decide, by decide, by decide, by decide, by decide⟩

/-- C7 as stated fails: under metric units (`altfactor = 1`, `altunits = "m"`) a 3D fix
with an altitude of `2 ^ 90` metres puts 32 characters in the altitude field, whose width
is 27. -/
theorem altitude_text_wider_than_field :
    (update_gps_panel sample_lib (startup_metric ⟨true, 17, 13⟩ 100)
        (sample_data true { sample_fix 3 with altitude := .fin 1 90 }) (clock_at 105)).datawin.get? 3
      = some ⟨4, 17, 27, "1237940039285380274899124224.0 m"⟩ ∧
    (win_write.text ⟨4, 17, 27, "1237940039285380274899124224.0 m"⟩).length = 32 ∧
    win_write.text ⟨4, 17, 27, "1237940039285380274899124224.0 m"⟩
      = "1237940039285380274899124224.0 m" := by
  refine ⟨by decide, by decide, by decide⟩

/-- What `snprintf` leaves in `scr` is the formatted text cut to 127 characters. -/
theorem length_snprintf (s : String) : (snprintf s).length = min 127 s.length := by
  unfold snprintf
  rw [String.length_mk, List.length_take]
  rfl

theorem length_snprintf_le (s : String) : (snprintf s).length ≤ 127 := by
  rw [length_snprintf]
  omega

/-- A formatted text of at most 127 characters is left in `scr` as it is. -/
theorem snprintf_of_short (s : String) (h : s.length ≤ 127) : snprintf s = s := by
  unfold snprintf
  have h' : s.data.length ≤ 127 := h
  rw [List.take_of_length_le h']

/-- The strings the blocks of rows 2 to 14 leave in `scr` hold at most 127 characters. -/
theorem scr_length_le (lib : gpsd_lib) (g : cgps_t) (d : gps_data_t) (clk : clock_t) :
    (latitude_scr lib g d.fix).length ≤ 127 ∧ (longitude_scr lib g d.fix).length ≤ 127 ∧
    (altitude_scr g d.fix).length ≤ 127 ∧ (speed_scr g d.fix).length ≤ 127 ∧
    (heading_scr lib g d.fix).length ≤ 127 ∧ (climb_scr g d.fix).length ≤ 127 ∧
    (status_scr g d clk).length ≤ 127 ∧
    (∀ (value factor : double) (units : String), (error_scr value factor units).length ≤ 127) ∧
    (epd_scr d.fix).length ≤ 127 ∧ (time_offset_scr d.fix clk).length ≤ 127 := by
  refine ⟨?_, ?_, ?_, ?_, ?_, ?_, ?_, ?_, ?_, ?_⟩
  · unfold latitude_scr; split <;> exact length_snprintf_le _
  · unfold longitude_scr; split <;> exact length_snprintf_le _
  · unfold altitude_scr; split <;> exact length_snprintf_le _
  · unfold speed_scr; split <;> exact length_snprintf_le _
  · unfold heading_scr
    split
    · simp only
      split <;> exact length_snprintf_le _
    · exact length_snprintf_le _
  · unfold climb_scr; split <;> exact length_snprintf_le _
  · unfold status_scr
    split
    · exact length_snprintf_le _
    · split
      · exact length_snprintf_le _
      · split <;> exact length_snprintf_le _
  · intro value factor units
    unfold error_scr; split <;> exact length_snprintf_le _
  · unfold epd_scr; split <;> exact length_snprintf_le _
  · unfold time_offset_scr; split <;> exact length_snprintf_le _

set_option maxRecDepth 100000 in
set_option exponentiation.threshold 1100 in
/-- Under metric units a 3D fix with an altitude of `2 ^ 1000` metres has a formatted value
of 306 characters; `snprintf` leaves the first 127 of them in `scr`, and the field shows
these 127 characters. -/
theorem altitude_scr_cut_at_127 :
    (fmt_f 1 (fmul (.fin 1 1000) (of_int 1)) ++ " " ++ "m").length = 306 ∧
    (altitude_scr (startup_metric ⟨true, 17, 13⟩ 100)
      { sample_fix 3 with altitude := .fin 1 1000 }).length = 127 ∧
    (win_write.text ⟨4, 17, 27, altitude_scr (startup_metric ⟨true, 17, 13⟩ 100)
      { sample_fix 3 with altitude := .fin 1 1000 }⟩).length = 127 := by
  refine ⟨by decide, by decide, by decide⟩

/-- C7 (amended): every value field `update_gps_panel` writes to the data window has the
declared width, 27 columns in rows 1..8 and 22 in rows 9..15, and the text written is the
string left in `scr` (for rows 2..14 the formatted value as `snprintf` leaves it, cut to
at most 127 characters) padded with blanks on the right and not cut to the width: its
length is the larger of the width and the length of the string left in `scr`, so it is
exactly the width whenever that string is no longer than the field, as for an absent value
(`"n/a"`), longer than the field otherwise, and in rows 2..14 never above 127. -/
theorem datawin_text_width (lib : gpsd_lib) (g : cgps_t) (d : gps_data_t) (clk : clock_t) :
    (update_gps_panel lib g d clk).datawin.map (fun w => (w.row, w.col, w.width))
      = [(1, 17, 27), (2, 17, 27), (3, 17, 27), (4, 17, 27), (5, 17, 27), (6, 17, 27),
         (7, 17, 27), (8, 17, 27)]
        ++ (if g.window_length ≥ 15 then
              [(9, 22, 22), (10, 22, 22), (11, 22, 22), (12, 22, 22), (13, 22, 22),
               (14, 22, 22), (15, 22, 22)]
            else []) ∧
    (∀ w ∈ (update_gps_panel lib g d clk).datawin,
      w.text.length = max w.width w.scr.length ∧ w.width ≤ w.text.length ∧
      (w.scr.length ≤ w.width → w.text.length = w.width) ∧
      (w.width < w.scr.length → w.width < w.text.length) ∧
      (w.scr = "n/a" → w.text.length = w.width) ∧
      (2 ≤ w.row → w.row ≤ 14 → w.scr.length ≤ 127 ∧ w.text.length ≤ 127)) ∧
    (∀ formatted : String, (snprintf formatted).length = min 127 formatted.length) := by
  refine ⟨?_, ?_, length_snprintf⟩
  · show (datawin_rows lib g d clk).map (fun w => (w.row, w.col, w.width)) = _
    unfold datawin_rows
    have h15 : MIN_GPS_DATAWIN_SIZE + 5 = 15 := by decide
    rw [h15, List.map_append]
    by_cases h : g.window_length ≥ 15
    · rw [if_pos h, if_pos h]; rfl
    · rw [if_neg h, if_neg h]; rfl
  · intro w hw
    have hlen : w.text.length = max w.width w.scr.length :=
      length_pad_left_justified w.width w.scr
    obtain ⟨b2, b3, b4, b5, b6, b7, b8, berr, b12, b14⟩ := scr_length_le lib g d clk
    have hfacts : 3 ≤ w.width ∧ w.width ≤ 27
        ∧ (2 ≤ w.row → w.row ≤ 14 → w.scr.length ≤ 127) := by
      have hw' : w ∈ datawin_rows lib g d clk := hw
      unfold datawin_rows at hw'
      rcases List.mem_append.mp hw' with h1 | h2
      · simp only [datawin_mandatory, List.mem_cons, List.mem_singleton, List.not_mem_nil,
          or_false] at h1
        rcases h1 with h | h | h | h | h | h | h | h <;> subst h
        · exact ⟨(by decide : (3 : Nat) ≤ 27), (by decide : (27 : Nat) ≤ 27),
            fun h2 _ => absurd h2 (by decide : ¬ (2 : Nat) ≤ 1)⟩
        · exact ⟨(by decide : (3 : Nat) ≤ 27), (by decide : (27 : Nat) ≤ 27), fun _ _ => b2⟩
        · exact ⟨(by decide : (3 : Nat) ≤ 27), (by decide : (27 : Nat) ≤ 27), fun _ _ => b3⟩
        · exact ⟨(by decide : (3 : Nat) ≤ 27), (by decide : (27 : Nat) ≤ 27), fun _ _ => b4⟩
        · exact ⟨(by decide : (3 : Nat) ≤ 27), (by decide : (27 : Nat) ≤ 27), fun _ _ => b5⟩
        · exact ⟨(by decide : (3 : Nat) ≤ 27), (by decide : (27 : Nat) ≤ 27), fun _ _ => b6⟩
        · exact ⟨(by decide : (3 : Nat) ≤ 27), (by decide : (27 : Nat) ≤ 27), fun _ _ => b7⟩
        · exact ⟨(by decide : (3 : Nat) ≤ 27), (by decide : (27 : Nat) ≤ 27), fun _ _ => b8⟩
      · split at h2
        · simp only [datawin_optional, List.mem_cons, List.mem_singleton, List.not_mem_nil,
            or_false] at h2
          rcases h2 with h | h | h | h | h | h | h <;> subst h
          · exact ⟨(by decide : (3 : Nat) ≤ 22), (by decide : (22 : Nat) ≤ 27),
              fun _ _ => berr _ _ _⟩
          · exact ⟨(by decide : (3 : Nat) ≤ 22), (by decide : (22 : Nat) ≤ 27),
              fun _ _ => berr _ _ _⟩
          · exact ⟨(by decide : (3 : Nat) ≤ 22), (by decide : (22 : Nat) ≤ 27),
              fun _ _ => berr _ _ _⟩
          · exact ⟨(by decide : (3 : Nat) ≤ 22), (by decide : (22 : Nat) ≤ 27),
              fun _ _ => b12⟩
          · exact ⟨(by decide : (3 : Nat) ≤ 22), (by decide : (22 : Nat) ≤ 27),
              fun _ _ => berr _ _ _⟩
          · exact ⟨(by decide : (3 : Nat) ≤ 22), (by decide : (22 : Nat) ≤ 27),
              fun _ _ => b14⟩
          · exact ⟨(by decide : (3 : Nat) ≤ 22), (by decide : (22 : Nat) ≤ 27),
              fun _ h14 => absurd h14 (by decide : ¬ (15 : Nat) ≤ 14)⟩
        · cases h2
    obtain ⟨hwidth, hwidth', hscr⟩ := hfacts
    refine ⟨hlen, by omega, fun h => by omega, fun h => by omega, fun h => ?_,
      fun h2 h14 => ?_⟩
    · have h3 : w.scr.length = 3 := by rw [h]; decide
      omega
    · have := hscr h2 h14
      omega

/-! ## Theorems: fix state -/

theorem record_state_state (g : cgps_t) (d : gps_data_t) (clk : clock_t) :
    (record_state g d clk).state = newstate d := by
  unfold record_state
  by_cases h : newstate d ≠ g.state
  · rw [if_pos h]
  · rw [if_neg h]
    exact (not_not.mp h).symm

/-- While every snapshot asks for the stored state, no call changes the state and each
reports its clock reading minus the unchanged `status_timer`. -/
theorem run_reports_steady (g : cgps_t) (rest : List (gps_data_t × clock_t))
    (h : ∀ q ∈ rest, newstate q.1 = g.state) :
    run_reports g rest = rest.map (fun q => (false, q.2.time_status - g.status_timer)) := by
  induction rest with
  | nil => rfl
  | cons q rest ih =>
    obtain ⟨d, clk⟩ := q
    have hq : newstate d = g.state := h (d, clk) (List.mem_cons_self _ _)
    have hg : record_state g d clk = g := by
      unfold record_state
      rw [if_neg (by simpa using hq)]
    unfold run_reports
    rw [hg, ih (fun q hq' => h q (List.mem_cons_of_mem _ hq')), List.map_cons]
    simp [hq, seconds_in_state]

theorem transitions_steady (rest : List (gps_data_t × clock_t)) (t : Int) :
    transitions (rest.map (fun q => (false, q.2.time_status - t))) = 0 := by
  unfold transitions
  rw [List.length_eq_zero, List.filter_eq_nil_iff]
  intro a ha
  obtain ⟨q, -, rfl⟩ := List.mem_map.mp ha
  simp

/-- C8 as stated fails: from the start-up state (`state = 0`) two identical off-line
snapshots cause no state change at all, and neither do two identical on-line snapshots
whose mode is 0. -/
theorem identical_snapshots_without_transition :
    transitions (run_reports (startup ⟨true, 17, 13⟩ 100)
      [(sample_data false (sample_fix 3), clock_at 105),
       (sample_data false (sample_fix 3), clock_at 106)]) = 0 ∧
    transitions (run_reports (startup ⟨true, 17, 13⟩ 100)
      [(sample_data true (sample_fix 0), clock_at 105),
       (sample_data true (sample_fix 0), clock_at 106)]) = 0 := by
  refine ⟨by decide, by decide⟩

/-- C8 (amended): from the start-up state (`state = 0`), for every non-empty sequence of
snapshots that all carry the same online flag and the same fix mode, read at
non-decreasing clock times: if the snapshots are on line with a mode other than 0 exactly
one state change occurs, at the first snapshot, and otherwise none occurs at all; and the
seconds-in-state value `time(NULL) - status_timer` reported by the calls after the first
never decreases. -/
theorem identical_snapshots_one_transition (g : cgps_t) (d : gps_data_t) (clk : clock_t)
    (rest : List (gps_data_t × clock_t)) (h0 : g.state = 0)
    (hsame : ∀ q ∈ rest, q.1.online = d.online ∧ q.1.fix.mode = d.fix.mode)
    (hclock : List.Chain' (· ≤ ·) (((d, clk) :: rest).map (fun q => q.2.time_status))) :
    (run_reports g ((d, clk) :: rest)).map (·.1)
      = decide (d.online = true ∧ d.fix.mode ≠ 0) :: List.replicate rest.length false ∧
    transitions (run_reports g ((d, clk) :: rest))
      = (if d.online = true ∧ d.fix.mode ≠ 0 then 1 else 0) ∧
    List.Chain' (· ≤ ·) ((run_reports g ((d, clk) :: rest)).tail.map (·.2)) := by
  have hnew : ∀ q ∈ rest, newstate q.1 = (record_state g d clk).state := by
    intro q hq
    rw [record_state_state]
    unfold newstate
    rw [(hsame q hq).1, (hsame q hq).2]
  have hrun : run_reports g ((d, clk) :: rest)
      = (decide (newstate d ≠ g.state), seconds_in_state g clk)
        :: rest.map (fun q => (false, q.2.time_status - (record_state g d clk).status_timer)) := by
    show (decide (newstate d ≠ g.state), seconds_in_state g clk)
        :: run_reports (record_state g d clk) rest = _
    rw [run_reports_steady _ _ hnew]
  have hfirst : decide (newstate d ≠ g.state) = decide (d.online = true ∧ d.fix.mode ≠ 0) := by
    rw [h0]
    unfold newstate
    cases d.online <;> simp
  rw [hrun, hfirst]
  refine ⟨?_, ?_, ?_⟩
  · rw [List.map_cons, List.map_map]
    congr 1
    clear hrun hclock hsame hnew
    induction rest with
    | nil => rfl
    | cons q rest ih => rw [List.map_cons, List.length_cons, List.replicate_succ, ih]; rfl
  · have hz := transitions_steady rest (record_state g d clk).status_timer
    unfold transitions at hz ⊢
    by_cases hc : d.online = true ∧ d.fix.mode ≠ 0
    · rw [List.filter_cons_of_pos (by simpa using hc), List.length_cons, hz, if_pos hc]
    · rw [List.filter_cons_of_neg (by simpa using hc), hz, if_neg hc]
  · rw [List.tail_cons, List.map_map]
    have hc : List.Chain' (· ≤ ·) (rest.map (fun q => q.2.time_status)) := by
      rw [List.map_cons] at hclock
      exact hclock.tail
    rw [List.chain'_map] at hc ⊢
    exact hc.imp (fun {a b} hab => by
      show a.2.time_status - _ ≤ b.2.time_status - _
      omega)

/-- The amended C8 at three identical on-line 3D snapshots read at seconds 105, 106 and
110 after a start at second 100: one state change, at the first, and the later calls
report 1 and 5 seconds. -/
theorem identical_snapshots_one_transition_witness :
    ((startup ⟨true, 17, 13⟩ 100).state = 0 ∧
     (∀ q ∈ [(sample_data true (sample_fix 3), clock_at 106),
             (sample_data true (sample_fix 3), clock_at 110)],
        q.1.online = (sample_data true (sample_fix 3)).online
          ∧ q.1.fix.mode = (sample_data true (sample_fix 3)).fix.mode) ∧
     List.Chain' (· ≤ ·) ([(sample_data true (sample_fix 3), clock_at 105),
        (sample_data true (sample_fix 3), clock_at 106),
        (sample_data true (sample_fix 3), clock_at 110)].map (fun q => q.2.time_status))) ∧
    run_reports (startup ⟨true, 17, 13⟩ 100)
      [(sample_data true (sample_fix 3), clock_at 105),
       (sample_data true (sample_fix 3), clock_at 106),
       (sample_data true (sample_fix 3), clock_at 110)] = [(true, 5), (false, 1), (false, 5)] ∧
    ((run_reports (startup ⟨true, 17, 13⟩ 100) ((sample_data true (sample_fix 3), clock_at 105)
        :: [(sample_data true (sample_fix 3), clock_at 106),
            (sample_data true (sample_fix 3), clock_at 110)])).map (·.1)
      = decide ((sample_data true (sample_fix 3)).online = true
          ∧ (sample_data true (sample_fix 3)).fix.mode ≠ 0)
        :: List.replicate [(sample_data true (sample_fix 3), clock_at 106),
            (sample_data true (sample_fix 3), clock_at 110)].length false ∧
    transitions (run_reports (startup ⟨true, 17, 13⟩ 100)
        ((sample_data true (sample_fix 3), clock_at 105)
        :: [(sample_data true (sample_fix 3), clock_at 106),
            (sample_data true (sample_fix 3), clock_at 110)]))
      = (if (sample_data true (sample_fix 3)).online = true
          ∧ (sample_data true (sample_fix 3)).fix.mode ≠ 0 then 1 else 0) ∧
    List.Chain' (· ≤ ·) ((run_reports (startup ⟨true, 17, 13⟩ 100)
        ((sample_data true (sample_fix 3), clock_at 105)
        :: [(sample_data true (sample_fix 3), clock_at 106),
            (sample_data true (sample_fix 3), clock_at 110)])).tail.map (·.2))) :=
  ⟨⟨by decide, by decide, by simp [clock_at]⟩, by decide,
    identical_snapshots_one_transition (startup ⟨true, 17, 13⟩ 100)
      (sample_data true (sample_fix 3)) (clock_at 105)
      [(sample_data true (sample_fix 3), clock_at 106),
       (sample_data true (sample_fix 3), clock_at 110)]
      (by decide) (by decide) (by simp [clock_at])⟩

/-- C9 (the code at the failing input): started at second 100 in state 0, a first on-line
3D snapshot rendered at second 105 changes the state, yet the status row of that call reads
`"3D FIX (5 secs)"`, the time since start-up: the row is formatted from the `status_timer`
stored before the call, which is set to 105 only at the end of the call.  A call that
follows in the same second reads `"3D FIX (0 secs)"`. -/
theorem status_row_at_transition :
    newstate (sample_data true (sample_fix 3)) ≠ (startup ⟨true, 17, 13⟩ 100).state ∧
    (update_gps_panel sample_lib (startup ⟨true, 17, 13⟩ 100)
        (sample_data true (sample_fix 3)) (clock_at 105)).datawin.get? 7
      = some ⟨8, 17, 27, "3D FIX (5 secs)"⟩ ∧
    win_write.text ⟨8, 17, 27, "3D FIX (5 secs)"⟩ = "3D FIX (5 secs)            " ∧
    (update_gps_panel sample_lib (startup ⟨true, 17, 13⟩ 100)
        (sample_data true (sample_fix 3)) (clock_at 105)).after.status_timer = 105 ∧
    (update_gps_panel sample_lib (startup ⟨true, 17, 13⟩ 100)
        (sample_data true (sample_fix 3)) (clock_at 105)).after.state = 3 ∧
    (update_gps_panel sample_lib
        (update_gps_panel sample_lib (startup ⟨true, 17, 13⟩ 100)
          (sample_data true (sample_fix 3)) (clock_at 105)).after
        (sample_data true (sample_fix 3)) (clock_at 105)).datawin.get? 7
      = some ⟨8, 17, 27, "3D FIX (0 secs)"⟩ := by
  refine ⟨by decide, by decide, by decide, by decide, by decide, by decide⟩

/-! ## Theorems: watchdog of the main loop -/

/-- A turn without data and without a key raises the counter by one as long as the counter
is at most 240 before the turn. -/
theorem main_turn_idle (s : loop_t) (h : s.wait_clicks ≤ 240) :
    main_turn s idle_turn = .ok { s with wait_clicks := s.wait_clicks + 1 } := by
  unfold main_turn idle_turn
  simp only [if_true]
  rw [if_neg (by omega)]
  simp

/-- Starting with `wait_clicks = c`, `n` turns without data leave the loop running, with
the counter at `c + n`, as long as `c + n ≤ 241`. -/
theorem main_loop_idle (s : loop_t) (n : Nat) (h : s.wait_clicks + n ≤ 241) :
    main_loop s (List.replicate n idle_turn)
      = .ok { s with wait_clicks := s.wait_clicks + n } := by
  induction n generalizing s with
  | zero => simp [main_loop]
  | succ n ih =>
    rw [List.replicate_succ]
    unfold main_loop
    rw [main_turn_idle s (by omega)]
    simp only
    rw [ih _ (by simp only; omega)]
    simp only [Except.ok.injEq, loop_t.mk.injEq, and_true]
    push_cast
    omega

/-- C10 (the code at the failing input): starting with `wait_clicks = 0`, after 241
turns in a row without data the loop is still running, with the counter at 241; it is the
242nd such turn that calls `die(GPS_TIMEOUT)`, because `240 < wait_clicks++` compares the
value the counter had before the increment. -/
theorem watchdog_needs_242_idle_turns :
    main_loop ⟨0, startup ⟨true, 17, 13⟩ 100⟩ (List.replicate 241 idle_turn)
      = .ok ⟨241, startup ⟨true, 17, 13⟩ 100⟩ ∧
    main_loop ⟨0, startup ⟨true, 17, 13⟩ 100⟩ (List.replicate 242 idle_turn)
      = .error GPS_TIMEOUT ∧
    main_turn ⟨241, startup ⟨true, 17, 13⟩ 100⟩ idle_turn = .error GPS_TIMEOUT ∧
    main_turn ⟨240, startup ⟨true, 17, 13⟩ 100⟩ idle_turn
      = .ok ⟨241, startup ⟨true, 17, 13⟩ 100⟩ := by
  have h241 := main_loop_idle ⟨0, startup ⟨true, 17, 13⟩ 100⟩ 241 (by decide)
  refine ⟨h241, ?_, by decide, by decide⟩
  have hsplit : List.replicate 242 idle_turn
      = List.replicate 241 idle_turn ++ [idle_turn] := by
    rw [← List.replicate_succ']
  have happ : ∀ (l : List turn_t) (s s1 : loop_t) (t : turn_t), main_loop s l = .ok s1 →
      main_loop s (l ++ [t]) = main_loop s1 [t] := by
    intro l
    induction l with
    | nil => intro s s1 t h; simp only [main_loop, Except.ok.injEq] at h; rw [h]; rfl
    | cons a l ih =>
      intro s s1 t h
      rw [List.cons_append]
      unfold main_loop at h ⊢
      cases hm : main_turn s a with
      | error e => rw [hm] at h; cases h
      | ok s2 =>
        rw [hm] at h
        simp only at h ⊢
        exact ih s2 s1 t h
  rw [hsplit, happ _ _ _ _ h241]
  decide

/-! ## Theorems: resize -/

/-- C11 as stated fails: re-running the layout planner after a resize from 30 to 20 rows
yields a geometry that still has a log panel; 20 rows are not the minimum size, which is
10, but exceed the maximum size 17. -/
theorem resize_to_20_keeps_log_panel :
    windowsetup 30 = .ok ⟨true, 17, 13⟩ ∧
    resize false 20 ⟨true, 17, 13⟩ = .ok ⟨true, 17, 13⟩ ∧
    MIN_GPS_DATAWIN_SIZE = 10 ∧ (20 : Int) > MAX_GPS_DATAWIN_SIZE := by
  refine ⟨by decide, by decide, by decide, by decide⟩

/-- C11 (amended): the layout planner run on 30 rows yields a geometry with a log panel,
and re-run after a resize to 20 rows it yields a geometry with a log panel again, because
20 exceeds the maximum size 17 as well: the data panel keeps its height 17 and the log
window shrinks from 13 rows to 3.  Neither run takes the unusable-terminal branch.  A
geometry without a log panel results from exactly 17 or exactly 10 rows only. -/
theorem resize_30_to_20_geometry :
    windowsetup 30 = .ok ⟨true, 17, 13⟩ ∧
    messages_rows 30 ⟨true, 17, 13⟩ = some 13 ∧
    resize false 20 ⟨true, 17, 13⟩ = .ok ⟨true, 17, 13⟩ ∧
    messages_rows 20 ⟨true, 17, 13⟩ = some 3 ∧
    (∀ (rows : Int) (geo : geometry), windowsetup rows = .ok geo →
      (geo.raw_flag = false ↔ rows = 17 ∨ rows = 10)) ∧
    resize false 17 ⟨true, 17, 13⟩ = .ok ⟨false, 17, 14⟩ ∧
    resize false 10 ⟨true, 17, 13⟩ = .ok ⟨false, 10, 7⟩ := by
  refine ⟨by decide, by decide, by decide, by decide, ?_, by decide, by decide⟩
  intro rows geo h
  obtain ⟨c1, c2, c3, c4, c5⟩ := windowsetup_cases rows
  by_cases h1 : 17 < rows
  · rw [c1 h1] at h
    cases h
    constructor
    · intro hf; cases hf
    · intro hr; omega
  · by_cases h2 : rows = 17
    · rw [c2 h2] at h
      cases h
      exact ⟨fun _ => Or.inl h2, fun _ => rfl⟩
    · by_cases h3 : 10 < rows
      · rw [c3 h3 (by omega)] at h
        cases h
        constructor
        · intro hf; cases hf
        · intro hr; omega
      · by_cases h4 : rows = 10
        · rw [c4 h4] at h
          cases h
          exact ⟨fun _ => Or.inr h4, fun _ => rfl⟩
        · rw [c5 (by omega)] at h
          cases h

/-! ## Theorems: the raw-data line -/

theorem right_trimmed_eq (s : List Char) : right_trimmed s = s.rdropWhile isspace := rfl

theorem trim_tail_cons (c : Char) (r : List Char) :
    trim_tail (c :: r) = c :: r.rdropWhile isspace := rfl

/-- The effect of one more character at the end on the result of the loop. -/
theorem trim_tail_concat (l : List Char) (a : Char) :
    trim_tail (l ++ [a])
      = if 0 < l.length ∧ isspace a = true then trim_tail l else l ++ [a] := by
  cases l with
  | nil => simp [trim_tail]
  | cons c r =>
    rw [List.cons_append, trim_tail_cons, trim_tail_cons]
    by_cases ha : isspace a = true
    · rw [if_pos ⟨by simp, ha⟩, List.rdropWhile_concat_pos _ _ _ ha]
    · rw [if_neg (fun h => ha h.2), List.rdropWhile_concat_neg _ _ _ ha]

/-- The loop run from the end of the string computes `trim_tail`. -/
theorem trim_loop_eq_trim_tail (s : List Char) : trim_loop s.length s = trim_tail s := by
  induction s using List.reverseRecOn with
  | nil => rfl
  | append_singleton l a ih =>
    rw [List.length_append, List.length_singleton, trim_tail_concat]
    unfold trim_loop
    have hget : (l ++ [a]).getD l.length ' ' = a := by simp
    have htake : (l ++ [a]).take l.length = l := by simp
    rw [hget, htake, ih]

/-- Running the loop on its own result changes nothing. -/
theorem trim_tail_idempotent (s : List Char) : trim_tail (trim_tail s) = trim_tail s := by
  cases s with
  | nil => rfl
  | cons c r =>
    rw [trim_tail_cons, trim_tail_cons]
    congr 1
    unfold List.rdropWhile
    rw [List.reverse_reverse, List.dropWhile_idempotent]

/-- On a line that holds a character other than white space the loop right-trims: the
result is the line without its longest white-space suffix. -/
theorem trim_tail_eq_right_trimmed (s : List Char) (h : ∃ c ∈ s, isspace c = false) :
    trim_tail s = right_trimmed s := by
  rw [right_trimmed_eq]
  cases s with
  | nil => rfl
  | cons c r =>
    rw [trim_tail_cons]
    induction r using List.reverseRecOn with
    | nil =>
      obtain ⟨x, hx, hsp⟩ := h
      have hxc : x = c := by simpa using hx
      rw [hxc] at hsp
      simp [List.rdropWhile_singleton, hsp]
    | append_singleton l a ih =>
      by_cases ha : isspace a = true
      · rw [← List.cons_append, List.rdropWhile_concat_pos _ _ _ ha,
          List.rdropWhile_concat_pos _ _ _ ha]
        apply ih
        obtain ⟨x, hx, hsp⟩ := h
        refine ⟨x, ?_, hsp⟩
        rcases List.mem_cons.mp hx with hxc | hxl
        · rw [hxc]; exact List.mem_cons_self _ _
        · rcases List.mem_append.mp hxl with h1 | h2
          · exact List.mem_cons_of_mem _ h1
          · have hxa : x = a := by simpa using h2
            rw [hxa, ha] at hsp
            cases hsp
      · rw [← List.cons_append, List.rdropWhile_concat_neg _ _ _ ha,
          List.rdropWhile_concat_neg _ _ _ ha]
        rfl

/-- On a non-empty line of white space only the loop leaves the first character, where
right-trimming leaves nothing. -/
theorem trim_tail_of_all_space (c : Char) (r : List Char)
    (h : ∀ x ∈ c :: r, isspace x = true) :
    trim_tail (c :: r) = [c] ∧ right_trimmed (c :: r) = [] := by
  constructor
  · rw [trim_tail_cons]
    congr 1
    exact List.rdropWhile_eq_nil_iff.mpr (fun x hx => h x (List.mem_cons_of_mem _ hx))
  · rw [right_trimmed_eq]
    exact List.rdropWhile_eq_nil_iff.mpr h

/-- On a line that holds a character other than white space the text left by the loop
does not end in white space. -/
theorem trim_tail_last_not_space (s : List Char) (h : ∃ c ∈ s, isspace c = false)
    (x : Char) (hx : (trim_tail s).getLast? = some x) : isspace x = false := by
  rw [trim_tail_eq_right_trimmed s h, right_trimmed_eq] at hx
  have hne : s.rdropWhile isspace ≠ [] := by
    intro h0
    rw [h0] at hx
    cases hx
  have hlast := List.rdropWhile_last_not (p := isspace) (l := s) hne
  rw [List.getLast?_eq_getLast _ hne] at hx
  cases hx
  simpa using hlast

/-- C12 (the code at the failing input): with a log panel and the silence flag off, a raw
line that consists of carriage return and line feed only is appended as a carriage return
(followed by the line terminator of `"%s\n"`): the loop stops above the first character,
so the text still ends in white space, where right-trimming leaves the empty text; the
same holds for a line of two blanks.  A line with other characters is right-trimmed. -/
theorem blank_line_keeps_first_character :
    (update_gps_panel sample_lib (startup ⟨true, 17, 13⟩ 100) (sample_raw_data "\r\n")
        (clock_at 105)).messages = some ("\r" ++ "\n") ∧
    String.mk (trim_loop "\r\n".length "\r\n".data) = "\r" ∧
    String.mk (right_trimmed "\r\n".data) = "" ∧
    ("\r".data.getLast?.map isspace) = some true ∧
    (update_gps_panel sample_lib (startup ⟨true, 17, 13⟩ 100) (sample_raw_data "  ")
        (clock_at 105)).messages = some (" " ++ "\n") ∧
    (update_gps_panel sample_lib (startup ⟨true, 17, 13⟩ 100)
        (sample_raw_data "$GPGLL,,,,,,V,N*64\r\n") (clock_at 105)).messages
      = some ("$GPGLL,,,,,,V,N*64" ++ "\n") := by
  refine ⟨by decide, by decide, by decide, by decide, by decide, by decide⟩

/-! ## Theorems: the optional fields -/

/-- The rows of the data window that carry a label. -/
theorem datawin_labels_rows (window_length : Int) :
    (datawin_labels window_length).map (·.row)
      = if window_length = 17 then [1, 2, 3, 4, 5, 6, 7, 8, 9, 10, 11, 12, 13, 14, 15]
        else [1, 2, 3, 4, 5, 6, 7, 8] := by
  unfold datawin_labels
  rw [datawin_sizes.2, List.map_append]
  by_cases h : window_length = 17
  · rw [if_pos h, if_pos h]; rfl
  · rw [if_neg h, if_neg h]; rfl

/-- The rows of the data window that `update_gps_panel` writes a value to. -/
theorem datawin_rows_rows (lib : gpsd_lib) (g : cgps_t) (d : gps_data_t) (clk : clock_t) :
    (update_gps_panel lib g d clk).datawin.map (·.row)
      = if g.window_length ≥ 15 then [1, 2, 3, 4, 5, 6, 7, 8, 9, 10, 11, 12, 13, 14, 15]
        else [1, 2, 3, 4, 5, 6, 7, 8] := by
  show (datawin_rows lib g d clk).map (·.row) = _
  unfold datawin_rows
  have h15 : MIN_GPS_DATAWIN_SIZE + 5 = 15 := by decide
  rw [h15, List.map_append]
  by_cases h : g.window_length ≥ 15
  · rw [if_pos h, if_pos h]; rfl
  · rw [if_neg h, if_neg h]; rfl

/-- The heights `windowsetup` can choose. -/
theorem windowsetup_heights (rows : Int) (geo : geometry) (h : windowsetup rows = .ok geo) :
    geo.window_length = 17 ∨ geo.window_length = 10 := by
  obtain ⟨c1, c2, c3, c4, c5⟩ := windowsetup_cases rows
  by_cases h1 : 17 < rows
  · rw [c1 h1] at h; cases h; exact Or.inl rfl
  · by_cases h2 : rows = 17
    · rw [c2 h2] at h; cases h; exact Or.inl rfl
    · by_cases h3 : 10 < rows
      · rw [c3 h3 (by omega)] at h; cases h; exact Or.inr rfl
      · by_cases h4 : rows = 10
        · rw [c4 h4] at h; cases h; exact Or.inr rfl
        · rw [c5 (by omega)] at h; cases h

/-- C13: for every geometry `windowsetup` can produce the optional-fields block is handled
consistently.  The test of `update_gps_panel` (`window_length >= MIN_GPS_DATAWIN_SIZE + 5`)
holds if and only if the test of `windowsetup` (`window_length == MAX_GPS_DATAWIN_SIZE`)
holds, which is if and only if the panel height is 17; the rows that get a value are the
rows that got a label, rows 1..15 for height 17 and rows 1..8 otherwise; and every row
written, the optional rows 9..15 among them, lies strictly between the border rows 0 and
`window_length - 1`. -/
theorem optional_block_consistent (lib : gpsd_lib) (g : cgps_t) (d : gps_data_t)
    (clk : clock_t) (rows : Int) (geo : geometry) (h : windowsetup rows = .ok geo)
    (hg : g.window_length = geo.window_length) :
    (g.window_length ≥ MIN_GPS_DATAWIN_SIZE + 5 ↔ geo.window_length = MAX_GPS_DATAWIN_SIZE) ∧
    (geo.window_length = MAX_GPS_DATAWIN_SIZE ↔ geo.window_length = 17) ∧
    ((∃ w ∈ (update_gps_panel lib g d clk).datawin, 9 ≤ w.row)
      ↔ (∃ l ∈ datawin_labels geo.window_length, 9 ≤ l.row)) ∧
    ((∃ l ∈ datawin_labels geo.window_length, 9 ≤ l.row) ↔ geo.window_length = 17) ∧
    (update_gps_panel lib g d clk).datawin.map (·.row)
      = (datawin_labels geo.window_length).map (·.row) ∧
    (geo.window_length = 17 →
      (update_gps_panel lib g d clk).datawin.map (·.row)
        = [1, 2, 3, 4, 5, 6, 7, 8, 9, 10, 11, 12, 13, 14, 15]) ∧
    (∀ w ∈ (update_gps_panel lib g d clk).datawin,
      0 < w.row ∧ (w.row : Int) < geo.window_length - 1) := by
  have hmin : MIN_GPS_DATAWIN_SIZE = 10 := datawin_sizes.1
  have hmax : MAX_GPS_DATAWIN_SIZE = 17 := datawin_sizes.2
  have hrows := datawin_rows_rows lib g d clk
  have hlab := datawin_labels_rows geo.window_length
  have hmem : ∀ (n : Nat), (∃ w ∈ (update_gps_panel lib g d clk).datawin, w.row = n)
      ↔ n ∈ (update_gps_panel lib g d clk).datawin.map (·.row) := by
    intro n
    simp only [List.mem_map]
  have hmeml : ∀ (n : Nat), (∃ l ∈ datawin_labels geo.window_length, l.row = n)
      ↔ n ∈ (datawin_labels geo.window_length).map (·.row) := by
    intro n
    simp only [List.mem_map]
  rcases windowsetup_heights rows geo h with h17 | h10
  · have hg17 : g.window_length = 17 := by rw [hg, h17]
    rw [if_pos (by omega)] at hrows
    rw [if_pos h17] at hlab
    refine ⟨by rw [hmin, hmax]; omega, by rw [hmax], ?_, ?_, by rw [hrows, hlab],
      fun _ => hrows, ?_⟩
    · constructor
      · intro _
        have h9 : (9 : Nat) ∈ (datawin_labels geo.window_length).map (·.row) := by
          rw [hlab]; decide
        obtain ⟨l, hl, hl9⟩ := (hmeml 9).mpr h9
        exact ⟨l, hl, by omega⟩
      · intro _
        have h9 : (9 : Nat) ∈ (update_gps_panel lib g d clk).datawin.map (·.row) := by
          rw [hrows]; decide
        obtain ⟨w, hw, hw9⟩ := (hmem 9).mpr h9
        exact ⟨w, hw, by omega⟩
    · constructor
      · intro _; exact h17
      · intro _
        have h9 : (9 : Nat) ∈ (datawin_labels geo.window_length).map (·.row) := by
          rw [hlab]; decide
        obtain ⟨l, hl, hl9⟩ := (hmeml 9).mpr h9
        exact ⟨l, hl, by omega⟩
    · intro w hw
      have hin := (hmem w.row).mp ⟨w, hw, rfl⟩
      rw [hrows] at hin
      simp only [List.mem_cons, List.mem_singleton, List.not_mem_nil, or_false] at hin
      omega
  · have hg10 : g.window_length = 10 := by rw [hg, h10]
    rw [if_neg (by omega)] at hrows
    rw [if_neg (by omega)] at hlab
    refine ⟨by rw [hmin, hmax]; omega, by rw [hmax], ?_, ?_, by rw [hrows, hlab],
      fun h17 => by omega, ?_⟩
    · constructor
      · rintro ⟨w, hw, hw9⟩
        have hin := (hmem w.row).mp ⟨w, hw, rfl⟩
        rw [hrows] at hin
        simp only [List.mem_cons, List.mem_singleton, List.not_mem_nil, or_false] at hin
        omega
      · rintro ⟨l, hl, hl9⟩
        have hin := (hmeml l.row).mp ⟨l, hl, rfl⟩
        rw [hlab] at hin
        simp only [List.mem_cons, List.mem_singleton, List.not_mem_nil, or_false] at hin
        omega
    · constructor
      · rintro ⟨l, hl, hl9⟩
        have hin := (hmeml l.row).mp ⟨l, hl, rfl⟩
        rw [hlab] at hin
        simp only [List.mem_cons, List.mem_singleton, List.not_mem_nil, or_false] at hin
        omega
      · intro h17; omega
    · intro w hw
      have hin := (hmem w.row).mp ⟨w, hw, rfl⟩
      rw [hrows] at hin
      simp only [List.mem_cons, List.mem_singleton, List.not_mem_nil, or_false] at hin
      omega

/-- C13 at a terminal of 24 rows (height 17, with a log panel) and an on-line 3D
snapshot: values are written on the fifteen labelled rows, all inside the border. -/
theorem optional_block_consistent_witness :
    (windowsetup 24 = .ok ⟨true, 17, 13⟩ ∧
      (startup ⟨true, 17, 13⟩ 100).window_length = (⟨true, 17, 13⟩ : geometry).window_length) ∧
    ((update_gps_panel sample_lib (startup ⟨true, 17, 13⟩ 100) (sample_data true (sample_fix 3))
        (clock_at 105)).datawin.map (·.row)
      = (datawin_labels (⟨true, 17, 13⟩ : geometry).window_length).map (·.row)) ∧
    (∀ w ∈ (update_gps_panel sample_lib (startup ⟨true, 17, 13⟩ 100)
        (sample_data true (sample_fix 3)) (clock_at 105)).datawin,
      0 < w.row ∧ (w.row : Int) < (⟨true, 17, 13⟩ : geometry).window_length - 1) ∧
    (update_gps_panel sample_lib (startup ⟨true, 17, 13⟩ 100) (sample_data true (sample_fix 3))
        (clock_at 105)).datawin.map (·.row)
      = [1, 2, 3, 4, 5, 6, 7, 8, 9, 10, 11, 12, 13, 14, 15] :=
  ⟨⟨by decide, rfl⟩,
    (optional_block_consistent sample_lib (startup ⟨true, 17, 13⟩ 100)
      (sample_data true (sample_fix 3)) (clock_at 105) 24 ⟨true, 17, 13⟩ (by decide) rfl).2.2.2.2.1,
    (optional_block_consistent sample_lib (startup ⟨true, 17, 13⟩ 100)
      (sample_data true (sample_fix 3)) (clock_at 105) 24 ⟨true, 17, 13⟩ (by decide)
      rfl).2.2.2.2.2.2,
    by decide⟩

/-! ## Theorems: rows of the satellite window -/

theorem row_of_mem_place (n : Nat) (l : List Nat) (w : sat_write) (h : w ∈ place n l) :
    n + 2 ≤ w.row ∧ w.row < n + 2 + l.length := by
  induction l generalizing n with
  | nil => cases h
  | cons a l ih =>
    rcases List.mem_cons.mp h with h1 | h2
    · rw [h1]
      simp only [List.length_cons]
      omega
    · have := ih (n + 1) h2
      simp only [List.length_cons]
      omega

theorem row_of_mem_blank (count i : Nat) (w : sat_write) (h : w ∈ sat_rows_blank count i) :
    i + 2 ≤ w.row ∧ w.row < i + 2 + count := by
  induction count generalizing i with
  | zero => cases h
  | succ c ih =>
    rcases List.mem_cons.mp h with h1 | h2
    · rw [h1]
      simp only
      omega
    · have := ih (i + 1) h2
      omega

/-- In the second branch every row written lies between row 2 and row
`display_sats + 2`. -/
theorem sat_panel_rows_bound (MAXCHANNELS ds vis : Int) (sky : Nat → satellite_t)
    (hds : ds < MAX_POSSIBLE_SATS MAXCHANNELS) (w : sat_write)
    (hw : w ∈ sat_panel MAXCHANNELS ds vis sky) :
    2 ≤ w.row ∧ (w.row : Int) ≤ ds + 2 := by
  unfold sat_panel at hw
  by_cases hvis : vis ≠ 0
  · rw [if_pos hvis, if_neg (by omega)] at hw
    simp only [sat_rows_select_eq, Nat.sub_zero, Nat.zero_add] at hw
    have hlen := List.length_take_le ds.toNat
      ((List.range' 0 (MAX_POSSIBLE_SATS MAXCHANNELS).toNat).filter (qualifies ds vis sky))
    split at hw
    · rename_i hn
      rcases List.mem_append.mp hw with h1 | h2
      · have := row_of_mem_place _ _ _ h1
        omega
      · have := row_of_mem_blank _ _ _ h2
        omega
    · have := row_of_mem_place _ _ _ hw
      omega
  · rw [if_neg hvis] at hw
    cases hw

/-- In the geometries with a log panel (`display_sats = window_length - 4`) every row
written to the satellite window lies between row 2 and row `window_length - 2`. -/
theorem sat_rows_inside_with_log_panel (MAXCHANNELS vis : Int) (sky : Nat → satellite_t)
    (rows : Int) (geo : geometry) (h : windowsetup rows = .ok geo)
    (hraw : geo.raw_flag = true) (hmax : MAX_POSSIBLE_SATS MAXCHANNELS > 14)
    (w : sat_write) (hw : w ∈ sat_panel MAXCHANNELS geo.display_sats vis sky) :
    2 ≤ w.row ∧ (w.row : Int) ≤ geo.window_length - 2 := by
  obtain ⟨c1, c2, c3, c4, c5⟩ := windowsetup_cases rows
  have hgeo : geo = ⟨true, 17, 13⟩ ∨ geo = ⟨true, 10, 6⟩ := by
    by_cases h1 : 17 < rows
    · rw [c1 h1] at h; cases h; exact Or.inl rfl
    · by_cases h2 : rows = 17
      · rw [c2 h2] at h; cases h; cases hraw
      · by_cases h3 : 10 < rows
        · rw [c3 h3 (by omega)] at h; cases h; exact Or.inr rfl
        · by_cases h4 : rows = 10
          · rw [c4 h4] at h; cases h; cases hraw
          · rw [c5 (by omega)] at h; cases h
  rcases hgeo with hg | hg
  · rw [hg] at hw ⊢
    have := sat_panel_rows_bound MAXCHANNELS 13 vis sky (by omega) w hw
    simp only
    omega
  · rw [hg] at hw ⊢
    have := sat_panel_rows_bound MAXCHANNELS 6 vis sky (by omega) w hw
    simp only
    omega

/-- C14 (the code at the failing input): in the geometry of a 10-row terminal (window of
10 rows, no log panel, `display_sats = 7`) and with 70 trackable satellites, a snapshot
with 3 visible satellites makes `update_gps_panel` write the satellite rows 2..9: the last
empty row lands on row 9, the bottom border row `window_length - 1`.  In the geometry of
a 17-row terminal the last empty row lands on row 16, again the border. -/
theorem blank_fill_reaches_bottom_border :
    windowsetup 10 = .ok ⟨false, 10, 7⟩ ∧ MAX_POSSIBLE_SATS sample_lib.MAXCHANNELS > 14 ∧
    (update_gps_panel sample_lib (startup ⟨false, 10, 7⟩ 100) (sample_sky_data 3 [0, 1, 2])
        (clock_at 105)).satellites
      = [⟨2, some 0⟩, ⟨3, some 1⟩, ⟨4, some 2⟩, ⟨5, none⟩, ⟨6, none⟩, ⟨7, none⟩, ⟨8, none⟩,
         ⟨9, none⟩] ∧
    ((9 : Nat) : Int) = (⟨false, 10, 7⟩ : geometry).window_length - 1 ∧
    windowsetup 17 = .ok ⟨false, 17, 14⟩ ∧
    (update_gps_panel sample_lib (startup ⟨false, 17, 14⟩ 100) (sample_sky_data 3 [0, 1, 2])
        (clock_at 105)).satellites.getLast? = some ⟨16, none⟩ ∧
    ((16 : Nat) : Int) = (⟨false, 17, 14⟩ : geometry).window_length - 1 := by
  refine ⟨by decide, by decide, by decide, by decide, by decide, by decide, by decide⟩

end Cgps
